import Mathlib

/-!
Shallow embedding of `dev_driver/dev_driver.py` (stateless Windows GUI driver)
and proofs about its specification claims.

Modelling conventions:
* Python floats are modelled as exact rationals (`ℚ`); Python `round` is
  round-half-to-even, modelled by `pyRound`.
* Python exceptions are the `Except.error` side of a hand-rolled state monad
  `M α = St → Except Err α × St`; the state (the observable trace of posted
  input messages, overlay create/destroy events, printed JSON lines, saved
  files) survives an error, mirroring the fact that a raised exception does
  not undo side effects already performed.
* Win32 and PIL calls are abstracted through an `Env` record supplying the
  live-desktop answers (window list, rectangles, hit tests, capture results);
  each `Env` field corresponds to one native query the source makes.
-/

namespace DevDriver

/-! ### Basic data -/

/-- Python `round` on exact values: round half to even (banker's rounding),
the semantics of Python 3's built-in `round`. -/
def pyRound (q : ℚ) : ℤ :=
  if q - ⌊q⌋ < 1/2 then ⌊q⌋
  else if 1/2 < q - ⌊q⌋ then ⌊q⌋ + 1
  else if ⌊q⌋ % 2 = 0 then ⌊q⌋ else ⌊q⌋ + 1

/-- A window/screen rectangle, as the 4-tuples `(left, top, right, bottom)`
the source passes around (`_Rect`, `_window_rect`, `_rect_dict`). -/
structure Rect where
  left : ℤ
  top : ℤ
  right : ℤ
  bottom : ℤ
deriving DecidableEq

/-- `width` as computed by `_rect_dict` / `_rel_to_abs`: `right - left`. -/
def Rect.width (r : Rect) : ℤ := r.right - r.left

/-- `height` as computed by `_rect_dict` / `_rel_to_abs`: `bottom - top`. -/
def Rect.height (r : Rect) : ℤ := r.bottom - r.top

/-- The exceptions the embedded code can raise.  Each constructor corresponds
to one `raise` site of the source (or of the PIL/pywin32 calls it makes);
payloads keep the data the Python message interpolates. -/
inductive Err where
  | screenMismatch (w h : ℤ)
  | emptyTitle
  | noMatch (title : String)
  | multiMatch (titles : List String)
  | unknownMode (mode : String)
  | relOutOfBounds (rel : ℚ)
  | invalidRectSize (w h : ℤ)
  | coordOutOfBounds (x y : ℤ)
  | noWindowAtPoint
  | noForegroundWindow
  | captureFailed
  | rectOutOfBounds (r : Rect)
  | cropRightLtLeft
  | cropBottomLtTop
  | emptyImageSave
  | saveFailed (path : String)
  | loadFailed (path : String)
  | imageSizeMismatch
  | thresholdOutOfRange
  | alphaOutOfRange
  | invalidSizeFormat (value : String)
  | adjustFailed
  | fgDenied
deriving DecidableEq

/-- The `str(exc)` message main prints for an uncaught exception; mirrors the
message strings of the corresponding Python `raise` sites (numeric
interpolation via `toString`). -/
def Err.message : Err → String
  | .screenMismatch w h =>
      "screen size mismatch: " ++ toString w ++ "x" ++ toString h ++ ", expected 1920x1080"
  | .emptyTitle => "empty window title"
  | .noMatch title => "no window title contains: " ++ title
  | .multiMatch titles => "multiple windows matched: " ++ String.intercalate ", " titles
  | .unknownMode mode => "unknown mode: " ++ mode
  | .relOutOfBounds rel => "relative coordinate out of bounds: " ++ toString rel ++ " (0..1000)"
  | .invalidRectSize w h => "invalid rect size: " ++ toString w ++ "x" ++ toString h
  | .coordOutOfBounds x y => "coordinate out of bounds: x=" ++ toString x ++ ", y=" ++ toString y
  | .noWindowAtPoint => "no window found at target point"
  | .noForegroundWindow => "no foreground window to receive text"
  | .captureFailed => "failed to capture image"
  | .rectOutOfBounds _ => "window rect out of bounds"
  | .cropRightLtLeft => "Coordinate 'right' is less than 'left'"
  | .cropBottomLtTop => "Coordinate 'lower' is less than 'upper'"
  | .emptyImageSave => "tile cannot extend outside image"
  | .saveFailed path => "cannot write file: " ++ path
  | .loadFailed path => "cannot identify image file: " ++ path
  | .imageSizeMismatch => "image size mismatch"
  | .thresholdOutOfRange => "threshold must be in 0..255"
  | .alphaOutOfRange => "alpha must be in 0..1"
  | .invalidSizeFormat value => "invalid size format: " ++ value
  | .adjustFailed => "failed to compute window size from client size"
  | .fgDenied => "(0, 'SetForegroundWindow', 'No error message is available')"

/-- One posted input message (`win32gui.PostMessage` / `win32api.PostMessage`),
recording the target window handle and the client coordinates / character code
the source packs into the message parameters. -/
inductive Msg where
  | mouseMove (hwnd x y : ℤ)
  | lbuttonDown (hwnd x y : ℤ)
  | lbuttonUp (hwnd x y : ℤ)
  | charMsg (hwnd code : ℤ)
deriving DecidableEq

/-- One JSON line printed by `_print_json` via `_ok` / `_error`:
the status tag, the action name, the failure message (empty on success) and
the operation-specific fields flattened to string pairs. -/
structure OutLine where
  ok : Bool
  action : String
  message : String
  fields : List (String × String)
deriving DecidableEq

/-- The observable trace: stdout lines, posted input messages, overlay
create/destroy events (with generated handles), a handle counter, the count
of `SetForegroundWindow` calls made so far, saved image files, and the
`(threshold, alpha)` pairs `_write_diff_image` has been entered with. -/
structure St where
  printed : List OutLine
  posted : List Msg
  ovCreated : List ℤ
  ovDestroyed : List ℤ
  ovCounter : ℤ
  fgCount : ℕ
  savedFiles : List String
  diffCalls : List (ℤ × ℚ)
deriving DecidableEq

/-- The empty trace at process start. -/
def St.init : St :=
  { printed := [], posted := [], ovCreated := [], ovDestroyed := [],
    ovCounter := 0, fgCount := 0, savedFiles := [], diffCalls := [] }

/-! ### The effect monad -/

/-- Computations of the driver: state-passing with Python-exception escape.
The state is kept on the error side too (side effects already performed are
not rolled back by `raise`). -/
def M (α : Type) : Type := St → Except Err α × St

def pureM {α : Type} (a : α) : M α := fun s => (.ok a, s)

def bindM {α β : Type} (x : M α) (f : α → M β) : M β := fun s =>
  match x s with
  | (.ok a, s1) => f a s1
  | (.error e, s1) => (.error e, s1)

def throwM {α : Type} (e : Err) : M α := fun s => (.error e, s)

def modifyM (f : St → St) : M Unit := fun s => (.ok (), f s)

/-- Lift a pure fallible computation (one that performs no side effect). -/
def liftE {α : Type} (r : Except Err α) : M α := fun s => (r, s)

/-- Python `try: ... except Exception as exc: <use exc>` reified as a value. -/
def tryResult {α : Type} (x : M α) : M (Except Err α) := fun s =>
  match x s with
  | (.ok a, s1) => (.ok (.ok a), s1)
  | (.error e, s1) => (.ok (.error e), s1)

/-- Python `try: ... except Exception: pass`. -/
def tryIgnore (x : M Unit) : M Unit := fun s =>
  match x s with
  | (.ok _, s1) => (.ok (), s1)
  | (.error _, s1) => (.ok (), s1)

/-- `_print_json`: append one line to stdout. -/
def print_json (l : OutLine) : M Unit :=
  modifyM fun s => { s with printed := s.printed ++ [l] }

/-- `_ok`: print the success envelope for `action` with its fields. -/
def ok_out (action : String) (fields : List (String × String)) : M Unit :=
  print_json { ok := true, action := action, message := "", fields := fields }

/-- `_error`: print the failure envelope and return exit code 1. -/
def error_out (action msg : String) : M ℕ :=
  bindM (print_json { ok := false, action := action, message := msg, fields := [] })
    fun _ => pureM 1

/-! ### Images (PIL) and the live environment -/

/-- An in-memory raster image: dimensions plus an RGB pixel map.  Pixels are
looked up at integer coordinates; only coordinates inside `[0,w) × [0,h)` are
meaningful. -/
structure Img where
  w : ℤ
  h : ℤ
  pix : ℤ → ℤ → ℤ × ℤ × ℤ

/-- One entry of the desktop window list as `_enum_windows`'s callback sees
it: handle, current title, and visibility. -/
structure WinEntry where
  hwnd : ℤ
  title : String
  visible : Bool
deriving DecidableEq

/-- The live desktop and OS behaviour the driver queries, one field per
native call the source makes:
`screenW/screenH` = `GetSystemMetrics(0/1)`; `dpi` = `GetDpiForSystem`;
`allWindows` = the enumeration order of `EnumWindows`;
`dwmRect` = `DwmGetWindowAttribute(EXTENDED_FRAME_BOUNDS)` (`none` = failed);
`getWindowRect` = `GetWindowRect`; `getClientRect` = `GetClientRect`;
`clientToScreen`/`screenToClient` = the coordinate translations;
`windowAtPoint` = `WindowFromPoint` (0 = no window); `rootOf` =
`GetAncestor(GA_ROOT)` (with the parent-walk fallback folded in);
`foreground` = `GetForegroundWindow` (0 = none); `maximized` = whether
`GetWindowPlacement` reports `SW_SHOWMAXIMIZED`;
`fgDeniedAt n` = whether the (n+1)-th `SetForegroundWindow` call of this
process fails (pywin32 raises when the API returns FALSE, e.g. under
focus-stealing prevention); `overlayCreateOk` = whether `CreateWindowEx`
succeeds; `captureOk` = whether the BitBlt pixel grab yields an image;
`screenImage` = the captured screen pixels; `saveFails` = whether writing the
output file raises an IO error; `loadImage` = `Image.open`+`convert("RGB")`
(`none` = unreadable); `envOverlayVar` = `os.getenv("SFA_CAPTURE_OVERLAY")`;
`adjustedWindowSize` = the outer size `AdjustWindowRectEx(ForDpi)` computes
for a desired client size. -/
structure Env where
  screenW : ℤ
  screenH : ℤ
  dpi : ℤ
  allWindows : List WinEntry
  dwmRect : ℤ → Option Rect
  getWindowRect : ℤ → Rect
  getClientRect : ℤ → Rect
  clientToScreen : ℤ → ℤ × ℤ → ℤ × ℤ
  screenToClient : ℤ → ℤ × ℤ → ℤ × ℤ
  windowAtPoint : ℤ × ℤ → ℤ
  rootOf : ℤ → ℤ
  foreground : ℤ
  maximized : ℤ → Bool
  fgDeniedAt : ℕ → Bool
  overlayCreateOk : Bool
  captureOk : Bool
  screenImage : Img
  saveFails : Bool
  loadImage : String → Option Img
  envOverlayVar : String
  adjustedWindowSize : ℤ → ℤ × ℤ → ℤ × ℤ

/-! ### Constants (module header of the source) -/

def SCREEN_WIDTH : ℤ := 1920
def SCREEN_HEIGHT : ℤ := 1080
def REL_MAX : ℚ := 1000
def OVERLAY_DEFAULT_MS : ℤ := 600
def OVERLAY_DEFAULT_TEXT : String := "CAPTURE ACTIVE - PLEASE DON\x27T TOUCH"

/-! ### Geometry and window resolution helpers -/

/-- `_ensure_screen_size`: raise unless the live screen is exactly
`SCREEN_WIDTH × SCREEN_HEIGHT`. -/
def ensure_screen_size (env : Env) : Except Err Unit :=
  if env.screenW ≠ SCREEN_WIDTH ∨ env.screenH ≠ SCREEN_HEIGHT then
    .error (.screenMismatch env.screenW env.screenH)
  else .ok ()

/-- `_dpi_scale`'s scale value: `dpi / 96 * 100` (percent). -/
def dpi_scale (env : Env) : ℚ := (env.dpi : ℚ) / 96 * 100

/-- ASCII lowercasing of one character (Python `str.lower` restricted to the
ASCII range the driver's window titles use). -/
def char_lower (c : Char) : Char :=
  if 'A' ≤ c ∧ c ≤ 'Z' then Char.ofNat (c.toNat + 32) else c

/-- Python `str.lower`. -/
def str_lower (s : String) : String := ⟨s.data.map char_lower⟩

/-- Python whitespace for `str.strip`. -/
def is_space (c : Char) : Bool :=
  c = ' ' ∨ c = '\t' ∨ c = '\n' ∨ c = '\r' ∨ c = '\x0b' ∨ c = '\x0c'

/-- Python `str.strip`: drop whitespace from both ends. -/
def str_trim (s : String) : String :=
  ⟨((s.data.dropWhile is_space).reverse.dropWhile is_space).reverse⟩

/-- Python `needle in hay` on strings: substring containment. -/
def str_contains (hay needle : String) : Bool :=
  decide (needle.data <:+: hay.data)

/-- The numeric value of a decimal digit character. -/
def digit_val (c : Char) : Option ℕ :=
  if '0' ≤ c ∧ c ≤ '9' then some (c.toNat - 48) else none

/-- Accumulate decimal digits; fails on any non-digit. -/
def parse_nat_digits : List Char → ℕ → Option ℕ
  | [], acc => some acc
  | c :: cs, acc =>
    match digit_val c with
    | some d => parse_nat_digits cs (acc * 10 + d)
    | none => none

/-- Python `int(str)` on an optionally signed decimal literal; anything else
raises `ValueError` (`none` here). -/
def parse_int (l : List Char) : Option ℤ :=
  match l with
  | [] => none
  | '-' :: rest =>
    if rest = [] then none else (parse_nat_digits rest 0).map fun n => -(n : ℤ)
  | '+' :: rest =>
    if rest = [] then none else (parse_nat_digits rest 0).map fun n => (n : ℤ)
  | _ => (parse_nat_digits l 0).map fun n => (n : ℤ)

/-- Python `str.split(sep)` for a one-character separator. -/
def split_on_char (sep : Char) (l : List Char) : List (List Char) :=
  l.foldr (fun c acc =>
    match acc with
    | [] => [[c]]
    | cur :: rest => if c = sep then [] :: cur :: rest else (c :: cur) :: rest) [[]]

/-- `_enum_windows`: visible windows with non-empty titles, in enumeration
order, as `(hwnd, title)` pairs. -/
def enum_windows (env : Env) : List (ℤ × String) :=
  (env.allWindows.filter fun w => w.visible && w.title ≠ "").map fun w => (w.hwnd, w.title)

/-- `_find_window_by_title`: case-insensitive substring match over the
visible-window titles; empty needle, zero matches and multiple matches each
raise (the ambiguous message carries the first five matched titles). -/
def find_window_by_title (env : Env) (title : String) : Except Err (ℤ × String) :=
  let needle := str_lower (str_trim title)
  if needle = "" then .error .emptyTitle
  else
    match (enum_windows env).filter fun p => str_contains (str_lower p.2) needle with
    | [] => .error (.noMatch title)
    | m :: rest =>
      if rest = [] then .ok m
      else .error (.multiMatch (((m :: rest).take 5).map Prod.snd))

/-- `_window_rect`: `window` mode prefers the DWM extended-frame rectangle and
falls back to `GetWindowRect`; `client` mode maps the client rectangle's two
corners to screen coordinates; any other mode string raises. -/
def window_rect (env : Env) (hwnd : ℤ) (mode : String) : Except Err Rect :=
  let m := str_trim (str_lower mode)
  if m ≠ "window" ∧ m ≠ "client" then .error (.unknownMode m)
  else if m = "window" then
    match env.dwmRect hwnd with
    | some r => .ok r
    | none => .ok (env.getWindowRect hwnd)
  else
    let c := env.getClientRect hwnd
    let p0 := env.clientToScreen hwnd (c.left, c.top)
    let p1 := env.clientToScreen hwnd (c.right, c.bottom)
    .ok { left := p0.1, top := p0.2, right := p1.1, bottom := p1.2 }

/-- `_rect_dict`: the rectangle fields of a success envelope. -/
def rect_fields (r : Rect) : List (String × String) :=
  [("left", toString r.left), ("top", toString r.top),
   ("right", toString r.right), ("bottom", toString r.bottom),
   ("width", toString r.width), ("height", toString r.height)]

/-- `_parse_size`: parse `"WxH"` (after trim/lowercase) into a pair of
positive integers; anything else raises `ValueError`. -/
def parse_size (value : String) : Except Err (ℤ × ℤ) :=
  let raw := (str_lower (str_trim value)).data
  if raw.contains 'x' = false then .error (.invalidSizeFormat value)
  else
    match split_on_char 'x' raw with
    | [p1, p2] =>
      match parse_int p1, parse_int p2 with
      | some w, some h =>
        if w ≤ 0 ∨ h ≤ 0 then .error (.invalidSizeFormat value) else .ok (w, h)
      | _, _ => .error (.invalidSizeFormat value)
    | _ => .error (.invalidSizeFormat value)

/-- `_validate_rel`: a relative coordinate must lie in `[0, REL_MAX]`. -/
def validate_rel (rel : ℚ) : Except Err Unit :=
  if 0 ≤ rel ∧ rel ≤ REL_MAX then .ok () else .error (.relOutOfBounds rel)

/-- `_rel_to_abs`: validate both relative coordinates, require the rectangle
to have positive width and height, then map each axis by
`edge + round(rel / 1000 * max(dim - 1, 0))`. -/
def rel_to_abs (rel_x rel_y : ℚ) (r : Rect) : Except Err (ℤ × ℤ) :=
  match validate_rel rel_x with
  | .error e => .error e
  | .ok _ =>
    match validate_rel rel_y with
    | .error e => .error e
    | .ok _ =>
      let width := r.right - r.left
      let height := r.bottom - r.top
      if width ≤ 0 ∨ height ≤ 0 then .error (.invalidRectSize width height)
      else
        let x := r.left + pyRound (rel_x / REL_MAX * ((max (width - 1) 0 : ℤ) : ℚ))
        let y := r.top + pyRound (rel_y / REL_MAX * ((max (height - 1) 0 : ℤ) : ℚ))
        .ok (x, y)

/-- `_validate_xy`: an absolute click point must lie inside the fixed screen. -/
def validate_xy (x y : ℤ) : Except Err Unit :=
  if 0 ≤ x ∧ x < SCREEN_WIDTH ∧ 0 ≤ y ∧ y < SCREEN_HEIGHT then .ok ()
  else .error (.coordOutOfBounds x y)

/-- `_window_at_point`: hit-test; raises when `WindowFromPoint` returns 0. -/
def window_at_point (env : Env) (x y : ℤ) : Except Err ℤ :=
  let hwnd := env.windowAtPoint (x, y)
  if hwnd = 0 then .error .noWindowAtPoint else .ok hwnd

/-- `_root_hwnd`: the top-level ancestor (`GetAncestor(GA_ROOT)`, with the
parent-walk fallback folded into the environment's answer). -/
def root_hwnd (env : Env) (hwnd : ℤ) : ℤ := env.rootOf hwnd

/-- `_adjust_window_size_for_client`: the outer window size computed by the
OS for a desired client size; a non-positive result raises. -/
def adjust_window_size_for_client (env : Env) (hwnd : ℤ) (cw ch : ℤ) : Except Err (ℤ × ℤ) :=
  let wh := env.adjustedWindowSize hwnd (cw, ch)
  if wh.1 ≤ 0 ∨ wh.2 ≤ 0 then .error .adjustFailed else .ok wh

/-- `_is_window_foreground`. -/
def is_window_foreground (env : Env) (hwnd : ℤ) : Bool := env.foreground = hwnd

/-- `_is_window_maximized`. -/
def is_window_maximized (env : Env) (hwnd : ℤ) : Bool := env.maximized hwnd

/-! ### Input injection -/

/-- Record one `PostMessage` in the trace. -/
def post_message (m : Msg) : M Unit :=
  modifyM fun s => { s with posted := s.posted ++ [m] }

/-- `_post_click`: post move, button-down, button-up at the given client
coordinates (the `(y << 16) | (x & 0xFFFF)` packing is kept as the explicit
pair). -/
def post_click (hwnd cx cy : ℤ) : M Unit :=
  bindM (post_message (.mouseMove hwnd cx cy)) fun _ =>
  bindM (post_message (.lbuttonDown hwnd cx cy)) fun _ =>
  post_message (.lbuttonUp hwnd cx cy)

/-- `_click_at`: validate the screen, validate the point, hit-test, convert
to client coordinates of the hit window, post the click. -/
def click_at (env : Env) (x y : ℤ) : M Unit :=
  bindM (liftE (ensure_screen_size env)) fun _ =>
  bindM (liftE (validate_xy x y)) fun _ =>
  bindM (liftE (window_at_point env x y)) fun hwnd =>
  let c := env.screenToClient hwnd (x, y)
  post_click hwnd c.1 c.2

/-- The per-character loop of `_type_text`: newline becomes code 13, any
other character is posted by its code point. -/
def post_chars (hwnd : ℤ) : List Char → M Unit
  | [] => pureM ()
  | c :: cs =>
    bindM (post_message (.charMsg hwnd (if c = '\n' then 13 else (c.toNat : ℤ)))) fun _ =>
    post_chars hwnd cs

/-- `_type_text`: post one `WM_CHAR` per character to the current foreground
window; raises when there is none. -/
def type_text (env : Env) (text : String) : M Unit :=
  let hwnd := env.foreground
  if hwnd = 0 then throwM .noForegroundWindow
  else post_chars hwnd text.toList

/-! ### Foreground / focus -/

/-- `win32gui.SetForegroundWindow`: pywin32 raises when the OS rejects the
request (focus-stealing prevention); the environment's `fgDeniedAt` oracle
decides the outcome of each successive call. -/
def set_foreground_window (env : Env) (_hwnd : ℤ) : M Unit := fun s =>
  let denied := env.fgDeniedAt s.fgCount
  let s1 := { s with fgCount := s.fgCount + 1 }
  if denied then (.error .fgDenied, s1) else (.ok (), s1)

/-- `ShowWindow` (`SW_MAXIMIZE` / `SW_RESTORE`); pywin32 does not raise on
its result, so it is a pure effect here. -/
def show_window (_hwnd : ℤ) (_maximize : Bool) : M Unit := pureM ()

/-- `_focus_window`: show (maximize or restore), then request foreground. -/
def focus_window (env : Env) (hwnd : ℤ) (maximize : Bool) : M Unit :=
  bindM (show_window hwnd maximize) fun _ =>
  set_foreground_window env hwnd

/-- `_set_window_pos`: `SetWindowPos` with NOMOVE/NOSIZE flags as needed; its
result is not inspected by the source, so it is a pure effect here. -/
def set_window_pos (_env : Env) (_hwnd : ℤ) (_x _y : Option ℤ) (_w _h : Option ℤ) : M Unit :=
  pureM ()

/-! ### Capture pipeline -/

/-- `_capture_fullscreen_image`: check the screen size, then grab the pixels
(BitBlt and the bitmap plumbing abstracted to the environment's `captureOk`
and `screenImage`; the device contexts it releases in its `finally` blocks
have no bearing on the overlay trace). -/
def capture_fullscreen_image (env : Env) : M Img :=
  bindM (liftE (ensure_screen_size env)) fun _ =>
  if env.captureOk then pureM env.screenImage else throwM .captureFailed

/-- `_create_overlay_window`: returns `none` when `CreateWindowEx` fails,
otherwise a fresh handle that is recorded as created.  Class registration,
display-affinity exclusion, layering, show and message-pump draining are
effects without observable trace here. -/
def create_overlay_window (env : Env) (_text : String) (_height _alpha : ℤ) : M (Option ℤ) :=
  if env.overlayCreateOk then
    fun s =>
      let hnew := s.ovCounter + 1
      (.ok (some hnew),
        { s with ovCounter := hnew, ovCreated := s.ovCreated ++ [hnew] })
  else pureM none

/-- `_destroy_overlay_window`: no-op on `None`/0, otherwise records the
destroy (its `DestroyWindow` call swallows exceptions). -/
def destroy_overlay_window (hwnd : Option ℤ) : M Unit :=
  match hwnd with
  | none => pureM ()
  | some h => modifyM fun s => { s with ovDestroyed := s.ovDestroyed ++ [h] }

/-- `_sleep_ms`: pure delay, no observable trace. -/
def sleep_ms (_ms : ℤ) : M Unit := pureM ()

/-- The overlay bracket both capture functions run verbatim before and after
the pixel grab: create, dwell if created, destroy; returns whether the
overlay was actually shown. -/
def overlay_bracket (env : Env) (ms : ℤ) (text : String) : M Bool :=
  bindM (create_overlay_window env text 36 220) fun oh =>
  bindM (if oh.isSome then sleep_ms ms else pureM ()) fun _ =>
  bindM (destroy_overlay_window oh) fun _ =>
  pureM oh.isSome

/-- Modelled from Pillow `Image.crop`: raises `ValueError` when the box is
inverted (`right < left` or `lower < upper`); otherwise yields the sub-image
whose pixels are offset by the box origin. -/
def image_crop (img : Img) (l t r b : ℤ) : Except Err Img :=
  if r < l then .error .cropRightLtLeft
  else if b < t then .error .cropBottomLtTop
  else .ok { w := r - l, h := b - t, pix := fun x y => img.pix (x + l) (y + t) }

/-- Modelled from Pillow `Image.save(..., format="PNG")`: the encoder rejects
an image with a non-positive dimension (`SystemError` from `setimage`), and
the write itself can fail for IO reasons (`Env.saveFails`); a successful save
records the output path. -/
def image_save_png (env : Env) (img : Img) (path : String) : M Unit :=
  if img.w ≤ 0 ∨ img.h ≤ 0 then throwM .emptyImageSave
  else if env.saveFails then throwM (.saveFailed path)
  else modifyM fun s => { s with savedFiles := s.savedFiles ++ [path] }

/-- `_capture_fullscreen_png`: overlay bracket, pixel grab, save, overlay
bracket again; returns whether an overlay was shown.  (`_safe_mkdir` has no
observable effect here; the `isinstance` guard after the grab is vacuous
because the grab either raises or yields an image.) -/
def capture_fullscreen_png (env : Env) (out_path : String)
    (overlay : Bool) (overlay_ms : ℤ) (overlay_text : String) : M Bool :=
  bindM (if overlay then overlay_bracket env overlay_ms overlay_text else pureM false)
    fun shown1 =>
  bindM (capture_fullscreen_image env) fun image =>
  bindM (image_save_png env image out_path) fun _ =>
  bindM (if overlay then overlay_bracket env overlay_ms overlay_text else pureM false)
    fun shown2 =>
  pureM (shown1 || shown2)

/-- `_capture_window_png`: overlay bracket, full-screen grab, resolve the
window rectangle, bounds-check it against the screen, crop, save, overlay
bracket again; returns the rectangle and whether an overlay was shown. -/
def capture_window_png (env : Env) (out_path : String) (hwnd : ℤ) (mode : String)
    (overlay : Bool) (overlay_ms : ℤ) (overlay_text : String) : M (Rect × Bool) :=
  bindM (if overlay then overlay_bracket env overlay_ms overlay_text else pureM false)
    fun shown1 =>
  bindM (capture_fullscreen_image env) fun image =>
  bindM (liftE (window_rect env hwnd mode)) fun r =>
  if r.left < 0 ∨ r.top < 0 ∨ SCREEN_WIDTH < r.right ∨ SCREEN_HEIGHT < r.bottom then
    throwM (.rectOutOfBounds r)
  else
  bindM (liftE (image_crop image r.left r.top r.right r.bottom)) fun cropped =>
  bindM (image_save_png env cropped out_path) fun _ =>
  bindM (if overlay then overlay_bracket env overlay_ms overlay_text else pureM false)
    fun shown2 =>
  pureM (r, shown1 || shown2)

/-! ### Diff engine -/

/-- Modelled from Pillow `convert("L")` (ITU-R 601-2):
`(19595 R + 38470 G + 7471 B) >> 16`. -/
def lum (p : ℤ × ℤ × ℤ) : ℤ := (19595 * p.1 + 38470 * p.2.1 + 7471 * p.2.2) / 2 ^ 16

/-- Modelled from Pillow `ImageChops.difference`: channel-wise absolute
difference. -/
def absdiff (a b : ℤ × ℤ × ℤ) : ℤ × ℤ × ℤ :=
  (|a.1 - b.1|, |a.2.1 - b.2.1|, |a.2.2 - b.2.2|)

/-- The histogram count of mask pixels at 255: the number of pixels whose
luminance difference strictly exceeds the threshold. -/
def diff_count (a b : Img) (threshold : ℤ) : ℕ :=
  ((List.range a.w.toNat).map fun x =>
    ((List.range a.h.toNat).filter fun y =>
      threshold < lum (absdiff (a.pix (x : ℤ) (y : ℤ)) (b.pix (x : ℤ) (y : ℤ)))).length).sum

/-- Modelled from Pillow `Image.blend`: per-channel `a + alpha * (b - a)`,
truncated. -/
def blend_pixel (p q : ℤ × ℤ × ℤ) (alpha : ℚ) : ℤ × ℤ × ℤ :=
  (⌊(p.1 : ℚ) + alpha * ((q.1 : ℚ) - (p.1 : ℚ))⌋,
   ⌊(p.2.1 : ℚ) + alpha * ((q.2.1 : ℚ) - (p.2.1 : ℚ))⌋,
   ⌊(p.2.2 : ℚ) + alpha * ((q.2.2 : ℚ) - (p.2.2 : ℚ))⌋)

/-- The composite output image: flagged pixels show the red blend, all other
pixels the unmodified second image. -/
def diff_out_image (a b : Img) (threshold : ℤ) (alpha : ℚ) : Img :=
  { w := b.w, h := b.h,
    pix := fun x y =>
      if threshold < lum (absdiff (a.pix x y) (b.pix x y)) then
        blend_pixel (b.pix x y) (255, 0, 0) alpha
      else b.pix x y }

/-- `Image.open(path).convert("RGB")`: raises when the file is unreadable. -/
def image_open (env : Env) (path : String) : Except Err Img :=
  match env.loadImage path with
  | some img => .ok img
  | none => .error (.loadFailed path)

/-- `_write_diff_image`: validate threshold and alpha ranges, load both
images, require equal sizes, count flagged pixels, compute the flagged
fraction, save the highlight composite, return `(count, fraction, size)`.
The entry parameters are recorded in the trace (`St.diffCalls`) so that
theorems can speak about the values a diff invocation executes with. -/
def write_diff_image (env : Env) (a_path b_path out_path : String)
    (threshold : ℤ) (alpha : ℚ) : M (ℕ × ℚ × ℤ × ℤ) :=
  bindM (modifyM fun s => { s with diffCalls := s.diffCalls ++ [(threshold, alpha)] })
    fun _ =>
  if threshold < 0 ∨ 255 < threshold then throwM .thresholdOutOfRange
  else if alpha < 0 ∨ 1 < alpha then throwM .alphaOutOfRange
  else
  bindM (liftE (image_open env a_path)) fun img_a =>
  bindM (liftE (image_open env b_path)) fun img_b =>
  if img_a.w ≠ img_b.w ∨ img_a.h ≠ img_b.h then throwM .imageSizeMismatch
  else
    let diff_pixels := diff_count img_a img_b threshold
    let total := img_b.w * img_b.h
    let frac : ℚ := if total ≠ 0 then (diff_pixels : ℚ) / (total : ℚ) else 0
    bindM (image_save_png env (diff_out_image img_a img_b threshold alpha) out_path) fun _ =>
    pureM (diff_pixels, frac, img_b.w, img_b.h)

/-! ### Command argument records (post-argparse values) -/

structure ObserveArgs where
  out : String
  window_title : String
  mode : String
  activate : Bool
  maximize : Bool
  overlay : Bool
  overlay_ms : ℤ
  overlay_text : String
deriving DecidableEq

structure ClickArgs where
  window_title : String
  rel_x : Option ℚ
  rel_y : Option ℚ
  x : Option ℤ
  y : Option ℤ
  mode : String
  activate : Bool
  maximize : Bool
  verify_window : Bool
deriving DecidableEq

structure TypeArgs where
  text : String
  window_title : String
  activate : Bool
  maximize : Bool
deriving DecidableEq

structure InspectArgs where
  title : String
  strict : Bool
  expect_foreground : Bool
  expect_scale : Option ℚ
  expect_window_size : String
  expect_client_size : String
  expect_maximized : Bool
deriving DecidableEq

structure FocusArgs where
  title : String
  maximize : Bool
  x : Option ℤ
  y : Option ℤ
  window_size : String
  client_size : String
deriving DecidableEq

structure DiffArgs where
  a : String
  b : String
  out : String
  threshold : ℤ
  alpha : ℚ
deriving DecidableEq

/-! ### The six command primitives -/

/-- The window block `cmd_inspect` builds into `info["window"]`. -/
structure WinInfoOut where
  title : String
  rect : Rect
  crect : Rect
  fg : Bool
  maxed : Bool
deriving DecidableEq

/-- `cmd_observe`. -/
def cmd_observe (env : Env) (a : ObserveArgs) : M ℕ :=
  let out_path := str_trim a.out
  if out_path = "" then error_out "observe" "--out is required"
  else
    let overlay := a.overlay || str_trim env.envOverlayVar ≠ ""
    let overlay_ms := if a.overlay_ms = 0 then OVERLAY_DEFAULT_MS else a.overlay_ms
    let overlay_text := if str_trim a.overlay_text = "" then OVERLAY_DEFAULT_TEXT else str_trim a.overlay_text
    let window_title := str_trim a.window_title
    if window_title ≠ "" then
      bindM (liftE (find_window_by_title env window_title)) fun hw =>
      bindM (if a.activate then focus_window env hw.1 a.maximize else pureM ()) fun _ =>
      let mode := if a.mode = "" then "window" else a.mode
      bindM (capture_window_png env out_path hw.1 mode overlay overlay_ms overlay_text)
        fun rs =>
      bindM (ok_out "observe"
        ([("file", out_path), ("title", hw.2), ("mode", mode)] ++ rect_fields rs.1 ++
         [("shown", toString rs.2)])) fun _ =>
      pureM 0
    else
      bindM (capture_fullscreen_png env out_path overlay overlay_ms overlay_text) fun shown =>
      bindM (ok_out "observe" [("file", out_path), ("shown", toString shown)]) fun _ =>
      pureM 0

/-- `cmd_click`. -/
def cmd_click (env : Env) (a : ClickArgs) : M ℕ :=
  let window_title := str_trim a.window_title
  if a.rel_x.isSome || a.rel_y.isSome then
    if a.rel_x.isNone || a.rel_y.isNone then
      error_out "click" "--rel-x and --rel-y must be provided together"
    else if window_title = "" then
      error_out "click" "--window-title is required for relative coordinates"
    else
      bindM (liftE (find_window_by_title env window_title)) fun hw =>
      bindM (if a.activate then focus_window env hw.1 a.maximize else pureM ()) fun _ =>
      let mode := if a.mode = "" then "window" else a.mode
      bindM (liftE (window_rect env hw.1 mode)) fun r =>
      bindM (liftE (rel_to_abs (a.rel_x.getD 0) (a.rel_y.getD 0) r)) fun p =>
      bindM (liftE (window_at_point env p.1 p.2)) fun hit =>
      if root_hwnd env hit ≠ hw.1 then
        error_out "click" "target window mismatch at point (window may be unfocused or covered)"
      else
        let c := env.screenToClient hit (p.1, p.2)
        bindM (post_click hit c.1 c.2) fun _ =>
        bindM (ok_out "click"
          ([("x", toString p.1), ("y", toString p.2), ("title", hw.2), ("mode", mode)] ++
           rect_fields r ++ [("hit_hwnd", toString hit)])) fun _ =>
        pureM 0
  else
    match a.x, a.y with
    | some x, some y =>
      bindM
        (if window_title ≠ "" then
          bindM (liftE (find_window_by_title env window_title)) fun hw =>
          bindM (if a.activate then focus_window env hw.1 a.maximize else pureM ()) fun _ =>
          if a.verify_window then
            bindM (liftE (window_at_point env x y)) fun hit =>
            pureM (root_hwnd env hit ≠ hw.1 : Bool)
          else pureM false
        else pureM false) fun mismatch =>
      if mismatch then error_out "click" "target window mismatch at point"
      else
        bindM (click_at env x y) fun _ =>
        bindM (ok_out "click" [("x", toString x), ("y", toString y)]) fun _ =>
        pureM 0
    | _, _ => error_out "click" "--x and --y are required when not using relative coordinates"

/-- `cmd_type`. -/
def cmd_type (env : Env) (a : TypeArgs) : M ℕ :=
  if a.text = "" then error_out "type" "--text is required"
  else
    let window_title := str_trim a.window_title
    bindM
      (if window_title ≠ "" ∧ a.activate then
        bindM (liftE (find_window_by_title env window_title)) fun hw =>
        focus_window env hw.1 a.maximize
      else pureM ()) fun _ =>
    bindM (type_text env a.text) fun _ =>
    bindM (ok_out "type" []) fun _ =>
    pureM 0

/-- The diagnostic fields `cmd_inspect` reports on success. -/
def inspect_fields (w h dpi : ℤ) (scale : ℚ) (winfo : Option WinInfoOut) :
    List (String × String) :=
  [("screen_width", toString w), ("screen_height", toString h),
   ("dpi", toString dpi), ("scale_percent", toString scale)] ++
  (match winfo with
   | none => []
   | some wi =>
     [("title", wi.title), ("is_foreground", toString wi.fg),
      ("is_maximized", toString wi.maxed)] ++ rect_fields wi.rect ++ rect_fields wi.crect)

/-- The success tail of `cmd_inspect`: report the diagnostic info. -/
def inspect_ok (env : Env) (winfo : Option WinInfoOut) : M ℕ :=
  bindM (ok_out "inspect"
    (inspect_fields env.screenW env.screenH env.dpi (dpi_scale env) winfo)) fun _ =>
  pureM 0

/-- The strict-only block of `cmd_inspect`: fixed screen size, window
presence, and (with `--expect-foreground`) foreground state. -/
def inspect_strict (env : Env) (a : InspectArgs) (title : String)
    (winfo : Option WinInfoOut) : M ℕ :=
  if a.strict then
    if env.screenW ≠ SCREEN_WIDTH ∨ env.screenH ≠ SCREEN_HEIGHT then
      error_out "inspect"
        ("screen size mismatch: " ++ toString env.screenW ++ "x" ++ toString env.screenH ++
         ", expected 1920x1080")
    else if title ≠ "" ∧ winfo.isNone then
      error_out "inspect" ("window not found: " ++ title)
    else if title ≠ "" ∧ a.expect_foreground ∧ (winfo.map WinInfoOut.fg).getD false = false then
      error_out "inspect" "window is not foreground"
    else inspect_ok env winfo
  else inspect_ok env winfo

/-- The `--expect-maximized` check of `cmd_inspect` (unconditional). -/
def inspect_maximized (env : Env) (a : InspectArgs) (title : String)
    (winfo : Option WinInfoOut) : M ℕ :=
  if a.expect_maximized then
    match winfo with
    | none => error_out "inspect" "window not found for maximize check"
    | some wi =>
      if wi.maxed = false then error_out "inspect" "window is not maximized"
      else inspect_strict env a title winfo
  else inspect_strict env a title winfo

/-- The `--expect-client-size` check of `cmd_inspect` (unconditional). -/
def inspect_client_size (env : Env) (a : InspectArgs) (title : String)
    (winfo : Option WinInfoOut) : M ℕ :=
  if str_trim a.expect_client_size ≠ "" then
    match winfo with
    | none => error_out "inspect" "window not found for client size check"
    | some wi =>
      bindM (liftE (parse_size (str_trim a.expect_client_size))) fun p =>
      if wi.crect.width ≠ p.1 ∨ wi.crect.height ≠ p.2 then
        error_out "inspect"
          ("client size mismatch: " ++ toString wi.crect.width ++ "x" ++
           toString wi.crect.height ++ ", expected " ++ toString p.1 ++ "x" ++ toString p.2)
      else inspect_maximized env a title winfo
  else inspect_maximized env a title winfo

/-- The `--expect-window-size` check of `cmd_inspect` (unconditional). -/
def inspect_window_size (env : Env) (a : InspectArgs) (title : String)
    (winfo : Option WinInfoOut) : M ℕ :=
  if str_trim a.expect_window_size ≠ "" then
    match winfo with
    | none => error_out "inspect" "window not found for size check"
    | some wi =>
      bindM (liftE (parse_size (str_trim a.expect_window_size))) fun p =>
      if wi.rect.width ≠ p.1 ∨ wi.rect.height ≠ p.2 then
        error_out "inspect"
          ("window size mismatch: " ++ toString wi.rect.width ++ "x" ++
           toString wi.rect.height ++ ", expected " ++ toString p.1 ++ "x" ++ toString p.2)
      else inspect_client_size env a title winfo
  else inspect_client_size env a title winfo

/-- The `--expect-scale` check of `cmd_inspect` (unconditional). -/
def inspect_scale_check (env : Env) (a : InspectArgs) (title : String)
    (winfo : Option WinInfoOut) : M ℕ :=
  match a.expect_scale with
  | some expected =>
    if 1/2 < |dpi_scale env - expected| then
      error_out "inspect"
        ("dpi scale mismatch: " ++ toString (dpi_scale env) ++ ", expected " ++
         toString expected)
    else inspect_window_size env a title winfo
  | none => inspect_window_size env a title winfo

/-- `cmd_inspect`: collect screen/DPI (and optionally window) info, then run
the expectation checks in source order — expected scale, expected window
size, expected client size, expected maximized state (each a hard failure
when it mismatches), and under `strict` additionally the fixed screen size,
window presence and expected foreground state — and finally report success.
(Each step function above models one `if` block of the source, in order;
message formatting is abstracted to `toString` interpolation.) -/
def cmd_inspect (env : Env) (a : InspectArgs) : M ℕ :=
  let title := str_trim a.title
  bindM
    (if title ≠ "" then
      bindM (liftE (find_window_by_title env title)) fun hw =>
      bindM (liftE (window_rect env hw.1 "window")) fun r =>
      bindM (liftE (window_rect env hw.1 "client")) fun cr =>
      pureM (some { title := hw.2, rect := r, crect := cr,
                    fg := is_window_foreground env hw.1,
                    maxed := is_window_maximized env hw.1 : WinInfoOut })
    else pureM (none : Option WinInfoOut)) fun winfo =>
  inspect_scale_check env a title winfo

/-- `cmd_focus`: resolve the window; if not maximizing, restore+focus first,
compute any requested size (window size directly, client size via the
DPI-aware frame adjustment), apply position/size, then re-request foreground
swallowing any failure of that final request; if maximizing, maximize+focus;
finally report the resulting window and client rectangles. -/
def cmd_focus (env : Env) (a : FocusArgs) : M ℕ :=
  let title := str_trim a.title
  if title = "" then error_out "focus" "--title is required"
  else
    bindM (liftE (find_window_by_title env title)) fun hw =>
    let window_size := str_trim a.window_size
    let client_size := str_trim a.client_size
    bindM
      (if a.maximize = false then
        bindM (focus_window env hw.1 false) fun _ =>
        bindM
          (if window_size ≠ "" then
            bindM (liftE (parse_size window_size)) fun p => pureM (some p)
          else if client_size ≠ "" then
            bindM (liftE (parse_size client_size)) fun p =>
            bindM (liftE (adjust_window_size_for_client env hw.1 p.1 p.2)) fun q =>
            pureM (some q)
          else pureM (none : Option (ℤ × ℤ))) fun wh =>
        bindM
          (if window_size ≠ "" ∨ client_size ≠ "" ∨ a.x.isSome ∨ a.y.isSome then
            set_window_pos env hw.1 a.x a.y (wh.map Prod.fst) (wh.map Prod.snd)
          else pureM ()) fun _ =>
        tryIgnore (set_foreground_window env hw.1)
      else focus_window env hw.1 true) fun _ =>
    bindM (liftE (window_rect env hw.1 "window")) fun r =>
    bindM (liftE (window_rect env hw.1 "client")) fun cr =>
    bindM (ok_out "focus"
      ([("title", hw.2), ("is_foreground", toString (is_window_foreground env hw.1))] ++
       rect_fields r ++ rect_fields cr)) fun _ =>
    pureM 0

/-- `cmd_diff`: require the three paths; replace a falsy threshold (0) by 20
and a falsy alpha (0.0) by 0.6; run the diff catching any exception into the
failure envelope; report metrics on success. -/
def cmd_diff (env : Env) (a : DiffArgs) : M ℕ :=
  let a_path := str_trim a.a
  let b_path := str_trim a.b
  let out_path := str_trim a.out
  if a_path = "" then error_out "diff" "--a is required"
  else if b_path = "" then error_out "diff" "--b is required"
  else if out_path = "" then error_out "diff" "--out is required"
  else
    let threshold := if a.threshold = 0 then 20 else a.threshold
    let alpha := if a.alpha = 0 then 6/10 else a.alpha
    bindM (tryResult (write_diff_image env a_path b_path out_path threshold alpha)) fun res =>
    match res with
    | .error e => error_out "diff" e.message
    | .ok (dp, frac, sw, sh) =>
      bindM (ok_out "diff"
        [("file", out_path), ("diff_pixels", toString dp), ("diff_fraction", toString frac),
         ("width", toString sw), ("height", toString sh)]) fun _ =>
      pureM 0

/-! ### Dispatch and the top-level entry point -/

/-- A parsed invocation (one subcommand with its argument record). -/
inductive Cmd where
  | observe (a : ObserveArgs)
  | click (a : ClickArgs)
  | typeText (a : TypeArgs)
  | inspect (a : InspectArgs)
  | focus (a : FocusArgs)
  | diff (a : DiffArgs)
deriving DecidableEq

/-- The `action` string of a command (argparse `dest="command"`). -/
def Cmd.action : Cmd → String
  | .observe _ => "observe"
  | .click _ => "click"
  | .typeText _ => "type"
  | .inspect _ => "inspect"
  | .focus _ => "focus"
  | .diff _ => "diff"

/-- `args.func(args)`: run the selected primitive. -/
def dispatch (env : Env) : Cmd → M ℕ
  | .observe a => cmd_observe env a
  | .click a => cmd_click env a
  | .typeText a => cmd_type env a
  | .inspect a => cmd_inspect env a
  | .focus a => cmd_focus env a
  | .diff a => cmd_diff env a

/-- `main` (after argument parsing): run the command from the empty trace;
any exception is caught and converted to the failure envelope with exit code
1.  Returns the process exit code and the final trace. -/
def main_run (env : Env) (c : Cmd) : ℕ × St :=
  match dispatch env c St.init with
  | (.ok code, s) => (code, s)
  | (.error e, s) =>
    match error_out c.action e.message s with
    | (.ok code, s1) => (code, s1)
    | (.error _, s1) => (1, s1)

/-! ### Concrete fixtures used to instantiate theorems -/

/-- A 1×1 black image, standing in for a minimal decodable PNG. -/
def img1 : Img := { w := 1, h := 1, pix := fun _ _ => (0, 0, 0) }

/-- A full-screen image fixture. -/
def screenImg : Img := { w := 1920, h := 1080, pix := fun _ _ => (10, 20, 30) }

/-- A benign live environment: the expected 1920×1080 screen at 96 DPI, one
visible window titled "Notepad" with handle 7 occupying (100,100)-(300,200),
all native calls succeeding. -/
def baseEnv : Env where
  screenW := 1920
  screenH := 1080
  dpi := 96
  allWindows := [{ hwnd := 7, title := "Notepad", visible := true }]
  dwmRect := fun _ => some { left := 100, top := 100, right := 300, bottom := 200 }
  getWindowRect := fun _ => { left := 100, top := 100, right := 300, bottom := 200 }
  getClientRect := fun _ => { left := 0, top := 0, right := 180, bottom := 80 }
  clientToScreen := fun _ p => (p.1 + 110, p.2 + 110)
  screenToClient := fun _ p => (p.1 - 110, p.2 - 110)
  windowAtPoint := fun _ => 7
  rootOf := fun h => h
  foreground := 7
  maximized := fun _ => false
  fgDeniedAt := fun _ => false
  overlayCreateOk := true
  captureOk := true
  screenImage := screenImg
  saveFails := false
  loadImage := fun _ => some img1
  envOverlayVar := ""
  adjustedWindowSize := fun _ p => (p.1 + 16, p.2 + 39)

/-- An environment with two visible windows whose titles share the substring
"Notepad". -/
def envTwo : Env :=
  { baseEnv with allWindows :=
      [{ hwnd := 7, title := "Notepad", visible := true },
       { hwnd := 8, title := "Notepad 2", visible := true }] }

/-- An environment in which another window (handle 9) covers the target: the
hit test returns 9 wherever the driver clicks, while "Notepad" is window 7. -/
def envCovered : Env := { baseEnv with windowAtPoint := fun _ => 9 }

/-- A relative-coordinate click bound to the "Notepad" window. -/
def clickRelArgs : ClickArgs :=
  { window_title := "Notepad", rel_x := some 500, rel_y := some 500,
    x := none, y := none, mode := "", activate := false, maximize := false,
    verify_window := false }

/-- An environment whose OS denies every foreground request (focus-stealing
prevention active the whole time). -/
def envFgDenied : Env := { baseEnv with fgDeniedAt := fun _ => true }

/-- An environment that grants the first foreground request of the process
and denies every later one. -/
def envSecondDenied : Env := { baseEnv with fgDeniedAt := fun n => decide (n ≠ 0) }

/-- A plain focus invocation on the "Notepad" window: no maximize, no
position, no size. -/
def focusArgs : FocusArgs :=
  { title := "Notepad", maximize := false, x := none, y := none,
    window_size := "", client_size := "" }

/-- An environment identical to `baseEnv` except that the foreground window
is some other window (handle 3), so "Notepad" is not foreground. -/
def envNotFg : Env := { baseEnv with foreground := 3 }

/-- An inspect invocation with no title, strict off, and an expected DPI
scale of 200% (the live environment runs at 100%). -/
def inspectScaleArgs : InspectArgs :=
  { title := "", strict := false, expect_foreground := false, expect_scale := some 200,
    expect_window_size := "", expect_client_size := "", expect_maximized := false }

/-- An inspect invocation on "Notepad" expecting it to be foreground, strict
off. -/
def inspectFgArgs : InspectArgs :=
  { title := "Notepad", strict := false, expect_foreground := true, expect_scale := none,
    expect_window_size := "", expect_client_size := "", expect_maximized := false }

/-- An observe invocation that captures the "Notepad" window after activating
it. -/
def observeActArgs : ObserveArgs :=
  { out := "shot.png", window_title := "Notepad", mode := "", activate := true,
    maximize := false, overlay := false, overlay_ms := 600, overlay_text := "" }

/-- A type invocation that activates the "Notepad" window first. -/
def typeActArgs : TypeArgs :=
  { text := "hi", window_title := "Notepad", activate := true, maximize := false }

/-! ### Behaviour predicates used in the envelope and overlay theorems -/

/-- The computation prints nothing to stdout. -/
def NoPrint {α : Type} (m : M α) : Prop :=
  ∀ s : St, ((m s).2).printed = s.printed

/-- The command behaves as one driver primitive must: a normal return has
printed exactly one new line — a success line with exit code 0 or a failure
line with exit code 1 — tagged with this action name, and an escaping
exception has printed nothing. -/
def EmitsOne (act : String) (m : M ℕ) : Prop :=
  ∀ s : St,
    (∀ n s1, m s = (.ok n, s1) →
      ∃ l, s1.printed = s.printed ++ [l] ∧ l.action = act ∧
        ((l.ok = true ∧ n = 0) ∨ (l.ok = false ∧ n = 1))) ∧
    (∀ e s1, m s = (.error e, s1) → s1.printed = s.printed)

/-- The computation keeps the overlay ledger balanced: if every overlay
created so far has been destroyed, that is still true afterwards (on both
normal and exceptional exit). -/
def OvBalanced {α : Type} (m : M α) : Prop :=
  ∀ s : St, s.ovCreated = s.ovDestroyed → ((m s).2).ovCreated = ((m s).2).ovDestroyed

/-! # Theorems -/

/-! ### Small-step reduction lemmas for the effect monad -/

theorem bindM_apply {α β : Type} (x : M α) (f : α → M β) (s : St) :
    bindM x f s =
      match x s with
      | (.ok a, s1) => f a s1
      | (.error e, s1) => (.error e, s1) := rfl

theorem pureM_apply {α : Type} (a : α) (s : St) : pureM a s = (.ok a, s) := rfl

theorem throwM_apply {α : Type} (e : Err) (s : St) : (throwM e : M α) s = (.error e, s) := rfl

theorem modifyM_apply (f : St → St) (s : St) : modifyM f s = (.ok (), f s) := rfl

theorem liftE_apply {α : Type} (r : Except Err α) (s : St) : liftE r s = (r, s) := rfl

theorem tryResult_apply {α : Type} (x : M α) (s : St) :
    tryResult x s =
      match x s with
      | (.ok a, s1) => (.ok (.ok a), s1)
      | (.error e, s1) => (.ok (.error e), s1) := rfl

theorem tryIgnore_apply (x : M Unit) (s : St) :
    tryIgnore x s = (.ok (), (x s).2) := by
  unfold tryIgnore
  rcases x s with ⟨res, s1⟩
  cases res <;> rfl

/-! ### Rounding lemmas -/

theorem pyRound_intCast (n : ℤ) : pyRound (n : ℚ) = n := by
  unfold pyRound
  rw [Int.floor_intCast]
  norm_num

theorem pyRound_nonneg {q : ℚ} (h : 0 ≤ q) : 0 ≤ pyRound q := by
  have hf : (0 : ℤ) ≤ ⌊q⌋ := Int.floor_nonneg.mpr h
  unfold pyRound
  split_ifs <;> omega

theorem pyRound_le {q : ℚ} {n : ℤ} (h : q ≤ (n : ℚ)) : pyRound q ≤ n := by
  have hfl : ⌊q⌋ ≤ n := by
    have h1 := Int.floor_mono h
    rwa [Int.floor_intCast] at h1
  have hflq : (⌊q⌋ : ℚ) ≤ q := Int.floor_le q
  unfold pyRound
  split_ifs with h1 h2 h3
  · exact hfl
  · have hlt : (⌊q⌋ : ℚ) < q := by linarith
    have : ⌊q⌋ < n := by exact_mod_cast lt_of_lt_of_le hlt h
    omega
  · exact hfl
  · have hge : (1 : ℚ)/2 ≤ q - ⌊q⌋ := le_of_not_lt h1
    have hlt : (⌊q⌋ : ℚ) < q := by linarith
    have : ⌊q⌋ < n := by exact_mod_cast lt_of_lt_of_le hlt h
    omega

theorem pyRound_scale_bounds (rel : ℚ) (d : ℤ) (h0 : 0 ≤ rel) (h1 : rel ≤ 1000) (hd : 0 ≤ d) :
    0 ≤ pyRound (rel / 1000 * (d : ℚ)) ∧ pyRound (rel / 1000 * (d : ℚ)) ≤ d := by
  have hq0 : 0 ≤ rel / 1000 * (d : ℚ) :=
    mul_nonneg (div_nonneg h0 (by norm_num)) (by exact_mod_cast hd)
  have hq1 : rel / 1000 * (d : ℚ) ≤ (d : ℚ) := by
    have hle1 : rel / 1000 ≤ 1 := (div_le_one (by norm_num)).mpr h1
    have hdq : (0 : ℚ) ≤ (d : ℚ) := by exact_mod_cast hd
    calc rel / 1000 * (d : ℚ) ≤ 1 * (d : ℚ) := mul_le_mul_of_nonneg_right hle1 hdq
    _ = (d : ℚ) := one_mul _
  exact ⟨pyRound_nonneg hq0, pyRound_le hq1⟩

/-! ### C1: relative-to-absolute mapping -/

theorem rel_to_abs_ok (rel_x rel_y : ℚ) (r : Rect)
    (hx0 : 0 ≤ rel_x) (hx1 : rel_x ≤ 1000) (hy0 : 0 ≤ rel_y) (hy1 : rel_y ≤ 1000)
    (hw : 0 < r.width) (hh : 0 < r.height) :
    rel_to_abs rel_x rel_y r =
      .ok (r.left + pyRound (rel_x / 1000 * ((max (r.width - 1) 0 : ℤ) : ℚ)),
           r.top + pyRound (rel_y / 1000 * ((max (r.height - 1) 0 : ℤ) : ℚ))) := by
  have hw' : ¬(r.right - r.left ≤ 0 ∨ r.bottom - r.top ≤ 0) := by
    unfold Rect.width at hw
    unfold Rect.height at hh
    omega
  unfold rel_to_abs validate_rel REL_MAX
  rw [if_pos ⟨hx0, hx1⟩, if_pos ⟨hy0, hy1⟩]
  rw [if_neg hw']
  rfl

/-- Claim C1: for every target rectangle with positive width W and height H
and relative coordinates in [0, 1000], the mapping returns
`(left + round(rel_x/1000 * max(W-1,0)), top + round(rel_y/1000 * max(H-1,0)))`;
(0, 0) maps to the top-left corner `(left, top)`, (1000, 1000) maps to
`(left + W - 1, top + H - 1)`, and the result always lies in the pixel range
`[left, left+W-1] × [top, top+H-1]`. -/
theorem C1_rel_to_abs_mapping (rel_x rel_y : ℚ) (r : Rect)
    (hx0 : 0 ≤ rel_x) (hx1 : rel_x ≤ 1000) (hy0 : 0 ≤ rel_y) (hy1 : rel_y ≤ 1000)
    (hw : 0 < r.width) (hh : 0 < r.height) :
    rel_to_abs rel_x rel_y r =
      .ok (r.left + pyRound (rel_x / 1000 * ((max (r.width - 1) 0 : ℤ) : ℚ)),
           r.top + pyRound (rel_y / 1000 * ((max (r.height - 1) 0 : ℤ) : ℚ))) ∧
    rel_to_abs 0 0 r = .ok (r.left, r.top) ∧
    rel_to_abs 1000 1000 r = .ok (r.left + r.width - 1, r.top + r.height - 1) ∧
    (∀ x y : ℤ, rel_to_abs rel_x rel_y r = .ok (x, y) →
      r.left ≤ x ∧ x ≤ r.left + r.width - 1 ∧ r.top ≤ y ∧ y ≤ r.top + r.height - 1) := by
  have hmw : (max (r.width - 1) 0 : ℤ) = r.width - 1 := by omega
  have hmh : (max (r.height - 1) 0 : ℤ) = r.height - 1 := by omega
  have hmain := rel_to_abs_ok rel_x rel_y r hx0 hx1 hy0 hy1 hw hh
  refine ⟨hmain, ?_, ?_, ?_⟩
  · rw [rel_to_abs_ok 0 0 r le_rfl (by norm_num) le_rfl (by norm_num) hw hh]
    have hz : ∀ d : ℤ, pyRound ((0 : ℚ) / 1000 * (d : ℚ)) = 0 := by
      intro d
      have : (0 : ℚ) / 1000 * (d : ℚ) = ((0 : ℤ) : ℚ) := by push_cast; ring
      rw [this, pyRound_intCast]
    rw [hz, hz]
    norm_num
  · rw [rel_to_abs_ok 1000 1000 r (by norm_num) le_rfl (by norm_num) le_rfl hw hh]
    have hone : ∀ d : ℤ, pyRound ((1000 : ℚ) / 1000 * (d : ℚ)) = d := by
      intro d
      have : (1000 : ℚ) / 1000 * (d : ℚ) = (d : ℚ) := by norm_num
      rw [this, pyRound_intCast]
    rw [hmw, hmh, hone, hone, Except.ok.injEq, Prod.mk.injEq]
    omega
  · intro x y hxy
    have hinj := hmain.symm.trans hxy
    rw [Except.ok.injEq, Prod.mk.injEq] at hinj
    obtain ⟨hxv, hyv⟩ := hinj
    have hbx := pyRound_scale_bounds rel_x (max (r.width - 1) 0) hx0 hx1 (le_max_right _ _)
    have hby := pyRound_scale_bounds rel_y (max (r.height - 1) 0) hy0 hy1 (le_max_right _ _)
    rw [hmw] at hbx hxv
    rw [hmh] at hby hyv
    omega

/-- Witness for C1: at the concrete rectangle (0,0)-(10,10), the relative
corner (1000, 1000) maps to the pixel (9, 9). -/
theorem C1_rel_to_abs_mapping_witness :
    rel_to_abs 1000 1000 { left := 0, top := 0, right := 10, bottom := 10 } = .ok (9, 9) := by
  have h := (C1_rel_to_abs_mapping 500 500 { left := 0, top := 0, right := 10, bottom := 10 }
    (by norm_num) (by norm_num) (by norm_num) (by norm_num) (by decide) (by decide)).2.2.1
  simpa [Rect.width, Rect.height] using h

/-! ### Inversion lemmas for the effect monad -/

theorem bindM_ok {α β : Type} {x : M α} {f : α → M β} {s : St} {b : β} {s2 : St}
    (h : bindM x f s = (.ok b, s2)) :
    ∃ a s1, x s = (.ok a, s1) ∧ f a s1 = (.ok b, s2) := by
  unfold bindM at h
  rcases hx : x s with ⟨res, s1⟩
  rw [hx] at h
  cases res with
  | ok a => exact ⟨a, s1, rfl, h⟩
  | error e => cases h

theorem liftE_ok {α : Type} {r : Except Err α} {s s1 : St} {a : α}
    (h : liftE r s = (.ok a, s1)) : r = .ok a ∧ s1 = s := by
  unfold liftE at h
  exact ⟨congrArg Prod.fst h, (congrArg Prod.snd h).symm⟩

theorem image_crop_ok {img : Img} {l t rr b : ℤ} {c : Img}
    (h : image_crop img l t rr b = .ok c) :
    ¬ rr < l ∧ ¬ b < t ∧ c.w = rr - l ∧ c.h = b - t := by
  unfold image_crop at h
  split_ifs at h with h1 h2
  rw [Except.ok.injEq] at h
  exact ⟨h1, h2, by rw [← h], by rw [← h]⟩

theorem image_save_png_ok {env : Env} {img : Img} {path : String} {s s1 : St} {u : Unit}
    (h : image_save_png env img path s = (.ok u, s1)) : 0 < img.w ∧ 0 < img.h := by
  unfold image_save_png at h
  split_ifs at h with h1 h2
  · simp [throwM] at h
  · simp [throwM] at h
  · omega

/-! ### C7: non-positive rectangles make the consuming operation fail -/

/-- Claim C7: for the two rectangle-consuming operations — relative-to-absolute
mapping and window-capture cropping — a rectangle whose width (right − left)
or height (bottom − top) is not strictly positive makes the operation fail
(raise) rather than produce a result. -/
theorem C7_nonpositive_rect_fails (r : Rect) (hr : r.width ≤ 0 ∨ r.height ≤ 0) :
    (∀ rel_x rel_y : ℚ, ∃ e, rel_to_abs rel_x rel_y r = .error e) ∧
    (∀ (env : Env) (out : String) (hwnd : ℤ) (mode : String) (ov : Bool) (ms : ℤ)
      (txt : String) (s : St),
      window_rect env hwnd mode = .ok r →
      ∃ e s1, capture_window_png env out hwnd mode ov ms txt s = (.error e, s1)) := by
  have hr' : r.right - r.left ≤ 0 ∨ r.bottom - r.top ≤ 0 := by
    unfold Rect.width Rect.height at hr
    exact hr
  constructor
  · intro rel_x rel_y
    unfold rel_to_abs
    cases hvx : validate_rel rel_x with
    | error e => exact ⟨e, rfl⟩
    | ok u =>
      cases hvy : validate_rel rel_y with
      | error e => exact ⟨e, rfl⟩
      | ok v =>
        refine ⟨.invalidRectSize (r.right - r.left) (r.bottom - r.top), ?_⟩
        dsimp only
        rw [if_pos hr']
  · intro env out hwnd mode ov ms txt s hwr
    rcases hrun : capture_window_png env out hwnd mode ov ms txt s with ⟨res, s2⟩
    cases res with
    | error e => exact ⟨e, s2, rfl⟩
    | ok v =>
      exfalso
      unfold capture_window_png at hrun
      obtain ⟨sh1, s1, _h1, hrun⟩ := bindM_ok hrun
      obtain ⟨img, sB, _h2, hrun⟩ := bindM_ok hrun
      obtain ⟨r2, sC, h3, hrun⟩ := bindM_ok hrun
      obtain ⟨hr2, _⟩ := liftE_ok h3
      rw [hwr, Except.ok.injEq] at hr2
      subst hr2
      split at hrun
      · simp [throwM] at hrun
      · obtain ⟨cropped, sD, h4, hrun⟩ := bindM_ok hrun
        obtain ⟨hcrop, _⟩ := liftE_ok h4
        obtain ⟨hcl, hct, hcw, hch⟩ := image_crop_ok hcrop
        obtain ⟨uu, sE, h5, hrun⟩ := bindM_ok hrun
        obtain ⟨hpw, hph⟩ := image_save_png_ok h5
        rw [hcw] at hpw
        rw [hch] at hph
        omega

/-- Witness for C7: a degenerate rectangle with zero width makes the mapping
fail, and a window capture whose resolved rectangle is that degenerate
rectangle fails too (concrete environment, overlay disabled). -/
theorem C7_nonpositive_rect_fails_witness :
    (∃ e, rel_to_abs 500 500 { left := 100, top := 100, right := 100, bottom := 200 } =
      .error e) ∧
    (∃ e s1, capture_window_png
        { baseEnv with dwmRect := fun _ => some { left := 100, top := 100, right := 100, bottom := 200 } }
        "out.png" 7 "window" false 600 OVERLAY_DEFAULT_TEXT St.init = (.error e, s1)) := by
  have h := C7_nonpositive_rect_fails { left := 100, top := 100, right := 100, bottom := 200 }
    (by left; decide)
  refine ⟨h.1 500 500, h.2
    { baseEnv with dwmRect := fun _ => some { left := 100, top := 100, right := 100, bottom := 200 } }
    "out.png" 7 "window" false 600 OVERLAY_DEFAULT_TEXT St.init ?_⟩
  rfl

/-! ### C5: window-title resolution failure modes -/

/-- Claim C5: for every window-title lookup with a (non-empty) needle, zero
case-insensitive substring matches among the visible windows fails as
not-found, and two or more matches fails as ambiguous with a candidate-title
list of at least one and at most five titles. -/
theorem C5_find_window_resolution (env : Env) (title : String)
    (hne : str_lower (str_trim title) ≠ "") :
    (((enum_windows env).filter fun p =>
        str_contains (str_lower p.2) (str_lower (str_trim title))) = [] →
      find_window_by_title env title = .error (.noMatch title)) ∧
    (∀ m1 m2 rest,
      ((enum_windows env).filter fun p =>
        str_contains (str_lower p.2) (str_lower (str_trim title))) = m1 :: m2 :: rest →
      ∃ ts, find_window_by_title env title = .error (.multiMatch ts) ∧
        1 ≤ ts.length ∧ ts.length ≤ 5) := by
  constructor
  · intro hfil
    unfold find_window_by_title
    rw [if_neg hne, hfil]
  · intro m1 m2 rest hfil
    refine ⟨((m1 :: m2 :: rest).take 5).map Prod.snd, ?_, ?_, ?_⟩
    · unfold find_window_by_title
      rw [if_neg hne, hfil]
      simp
    · simp
    · simp only [List.length_map, List.length_take]
      omega

/-- Witness for C5: in a desktop with two visible "Notepad"-titled windows the
lookup fails ambiguous with a one-to-five candidate list, and a needle that
matches no window fails as not-found. -/
theorem C5_find_window_resolution_witness :
    (∃ ts, find_window_by_title envTwo "Notepad" = .error (.multiMatch ts) ∧
      1 ≤ ts.length ∧ ts.length ≤ 5) ∧
    find_window_by_title baseEnv "Paint" = .error (.noMatch "Paint") :=
  ⟨(C5_find_window_resolution envTwo "Notepad" (by decide)).2
      (7, "Notepad") (8, "Notepad 2") [] (by decide),
   (C5_find_window_resolution baseEnv "Paint" (by decide)).1 (by decide)⟩

/-! ### C4: overlay windows are always destroyed -/

theorem ovbal_pure {α : Type} (a : α) : OvBalanced (pureM a) := fun _ h => h

theorem ovbal_throw {α : Type} (e : Err) : OvBalanced (throwM e : M α) := fun _ h => h

theorem ovbal_liftE {α : Type} (r : Except Err α) : OvBalanced (liftE r) := fun _ h => h

theorem ovbal_bind {α β : Type} {x : M α} {f : α → M β}
    (hx : OvBalanced x) (hf : ∀ a, OvBalanced (f a)) : OvBalanced (bindM x f) := by
  intro s h
  unfold bindM
  rcases hxs : x s with ⟨res, s1⟩
  have h1 : s1.ovCreated = s1.ovDestroyed := by
    have h2 := hx s h
    rw [hxs] at h2
    exact h2
  cases res with
  | ok a => exact hf a s1 h1
  | error e => exact h1

/-- Explicit execution of the overlay bracket: creation succeeding means one
overlay was created, shown and destroyed; creation failing means nothing
happened. -/
theorem overlay_bracket_run (env : Env) (ms : ℤ) (text : String) (s : St) :
    overlay_bracket env ms text s =
      if env.overlayCreateOk then
        (.ok true, { s with ovCounter := s.ovCounter + 1,
                            ovCreated := s.ovCreated ++ [s.ovCounter + 1],
                            ovDestroyed := s.ovDestroyed ++ [s.ovCounter + 1] })
      else (.ok false, s) := by
  by_cases hov : env.overlayCreateOk <;>
    simp [overlay_bracket, create_overlay_window, destroy_overlay_window, sleep_ms, bindM,
      pureM, modifyM, hov]

theorem ovbal_overlay_bracket (env : Env) (ms : ℤ) (text : String) :
    OvBalanced (overlay_bracket env ms text) := by
  intro s h
  rw [overlay_bracket_run]
  split
  · simp [h]
  · exact h

theorem ovbal_capture_image (env : Env) : OvBalanced (capture_fullscreen_image env) := by
  unfold capture_fullscreen_image
  apply ovbal_bind (ovbal_liftE _)
  intro _
  split
  · exact ovbal_pure _
  · exact ovbal_throw _

theorem ovbal_save (env : Env) (img : Img) (path : String) :
    OvBalanced (image_save_png env img path) := by
  unfold image_save_png
  split
  · exact ovbal_throw _
  · split
    · exact ovbal_throw _
    · intro s h
      exact h

theorem ovbal_capture_fullscreen_png (env : Env) (out : String) (ov : Bool) (ms : ℤ)
    (txt : String) : OvBalanced (capture_fullscreen_png env out ov ms txt) := by
  unfold capture_fullscreen_png
  apply ovbal_bind
  · split
    · exact ovbal_overlay_bracket env ms txt
    · exact ovbal_pure _
  intro sh1
  apply ovbal_bind (ovbal_capture_image env)
  intro img
  apply ovbal_bind (ovbal_save env img out)
  intro _
  apply ovbal_bind
  · split
    · exact ovbal_overlay_bracket env ms txt
    · exact ovbal_pure _
  intro sh2
  exact ovbal_pure _

theorem ovbal_capture_window_png (env : Env) (out : String) (hwnd : ℤ) (mode : String)
    (ov : Bool) (ms : ℤ) (txt : String) :
    OvBalanced (capture_window_png env out hwnd mode ov ms txt) := by
  unfold capture_window_png
  apply ovbal_bind
  · split
    · exact ovbal_overlay_bracket env ms txt
    · exact ovbal_pure _
  intro sh1
  apply ovbal_bind (ovbal_capture_image env)
  intro img
  apply ovbal_bind (ovbal_liftE _)
  intro r
  split
  · exact ovbal_throw _
  · apply ovbal_bind (ovbal_liftE _)
    intro cropped
    apply ovbal_bind (ovbal_save env cropped out)
    intro _
    apply ovbal_bind
    · split
      · exact ovbal_overlay_bracket env ms txt
      · exact ovbal_pure _
    intro sh2
    exact ovbal_pure _

/-- Claim C4: on every execution path of the two capture operations — over
any environment, including those where the pixel grab, the rectangle
resolution, the bounds check, the crop or the image save fails — the list of
overlay windows created equals the list of overlay windows destroyed when the
operation returns or its failure escapes. -/
theorem C4_overlay_always_destroyed (env : Env) (out : String) (hwnd : ℤ) (mode : String)
    (ov : Bool) (ms : ℤ) (txt : String) :
    ((capture_fullscreen_png env out ov ms txt St.init).2.ovCreated =
      (capture_fullscreen_png env out ov ms txt St.init).2.ovDestroyed) ∧
    ((capture_window_png env out hwnd mode ov ms txt St.init).2.ovCreated =
      (capture_window_png env out hwnd mode ov ms txt St.init).2.ovDestroyed) :=
  ⟨ovbal_capture_fullscreen_png env out ov ms txt St.init rfl,
   ovbal_capture_window_png env out hwnd mode ov ms txt St.init rfl⟩

/-! ### C2: a mismatched relative click posts no input -/

/-- Explicit execution of `_focus_window`: the show succeeds, the foreground
request consumes one oracle slot and raises exactly when denied. -/
theorem focus_window_run (env : Env) (hwnd : ℤ) (mx : Bool) (s : St) :
    focus_window env hwnd mx s =
      (if env.fgDeniedAt s.fgCount then .error .fgDenied else .ok (),
       { s with fgCount := s.fgCount + 1 }) := by
  by_cases hd : env.fgDeniedAt s.fgCount <;>
    simp [focus_window, show_window, set_foreground_window, bindM, pureM, hd]

/-- Claim C2: whenever a relative-coordinate click resolves its target, maps
the relative point, and finds that the hit-tested window's top-level ancestor
differs from the resolved target handle, the command returns the failure
envelope (exit code 1) and posts zero input messages. -/
theorem C2_click_mismatch_posts_nothing (env : Env) (a : ClickArgs)
    (hwnd0 : ℤ) (title0 : String) (rect : Rect) (ax ay hit : ℤ) (rx ry : ℚ)
    (hrx : a.rel_x = some rx) (hry : a.rel_y = some ry)
    (htitle : str_trim a.window_title ≠ "")
    (hfind : find_window_by_title env (str_trim a.window_title) = .ok (hwnd0, title0))
    (hact : a.activate = true → env.fgDeniedAt 0 = false)
    (hrect : window_rect env hwnd0 (if a.mode = "" then "window" else a.mode) = .ok rect)
    (habs : rel_to_abs rx ry rect = .ok (ax, ay))
    (hhit : env.windowAtPoint (ax, ay) = hit) (hhit0 : hit ≠ 0)
    (hroot : env.rootOf hit ≠ hwnd0) :
    (cmd_click env a St.init).1 = .ok 1 ∧
    (cmd_click env a St.init).2.posted = [] ∧
    (cmd_click env a St.init).2.printed =
      [{ ok := false, action := "click",
         message := "target window mismatch at point (window may be unfocused or covered)",
         fields := [] }] := by
  cases hav : a.activate with
  | false =>
    refine ⟨?_, ?_, ?_⟩ <;>
      simp [cmd_click, hrx, hry, htitle, hfind, hrect, habs, hhit, hhit0, hroot, hav,
        bindM, liftE, pureM, error_out, print_json, modifyM, window_at_point, root_hwnd,
        St.init]
  | true =>
    have hfg : env.fgDeniedAt 0 = false := hact hav
    refine ⟨?_, ?_, ?_⟩ <;>
      simp [cmd_click, hrx, hry, htitle, hfind, hrect, habs, hhit, hhit0, hroot, hav,
        focus_window_run, hfg, bindM, liftE, pureM, error_out, print_json, modifyM,
        window_at_point, root_hwnd, St.init]

/-- Witness for C2: in the covered-window environment the relative click on
"Notepad" fails with the mismatch envelope and posts nothing. -/
theorem C2_click_mismatch_posts_nothing_witness :
    (cmd_click envCovered clickRelArgs St.init).1 = .ok 1 ∧
    (cmd_click envCovered clickRelArgs St.init).2.posted = [] ∧
    (cmd_click envCovered clickRelArgs St.init).2.printed =
      [{ ok := false, action := "click",
         message := "target window mismatch at point (window may be unfocused or covered)",
         fields := [] }] := by
  have habs : rel_to_abs 500 500 { left := 100, top := 100, right := 300, bottom := 200 } =
      .ok (200, 150) := by
    norm_num [rel_to_abs, validate_rel, REL_MAX, pyRound]
  exact C2_click_mismatch_posts_nothing envCovered clickRelArgs 7 "Notepad"
    { left := 100, top := 100, right := 300, bottom := 200 } 200 150 9 500 500
    rfl rfl (by decide) rfl (by intro h; simp [clickRelArgs] at h) rfl habs rfl
    (by decide) (by decide)

/-! ### C10: falsy diff arguments fall back to the defaults -/

/-- Whatever path `_write_diff_image` takes, it was entered exactly once,
with the given threshold and alpha. -/
theorem write_diff_image_diffCalls (env : Env) (ap bp op : String) (t : ℤ) (al : ℚ)
    (s : St) :
    ((write_diff_image env ap bp op t al) s).2.diffCalls = s.diffCalls ++ [(t, al)] := by
  unfold write_diff_image image_save_png
  cases hA : image_open env ap <;> cases hB : image_open env bp <;>
    simp only [hA, hB, bindM_apply, modifyM_apply, liftE_apply, pureM_apply, throwM_apply] <;>
    split_ifs <;>
    simp only [bindM_apply, modifyM_apply, liftE_apply, pureM_apply, throwM_apply] <;>
    split_ifs <;>
    simp only [bindM_apply, modifyM_apply, liftE_apply, pureM_apply, throwM_apply]

/-- Claim C10: `cmd_diff` replaces a caller-supplied threshold of 0 by the
default 20 and an alpha of 0.0 by the default 0.6 before the comparison runs
(Python falsy-or defaulting), so no diff invocation executes with threshold 0
or alpha 0.0: the recorded diff entry (when the diff runs at all) carries the
substituted values, which are never 0. -/
theorem C10_diff_falsy_defaults (env : Env) (a : DiffArgs) :
    ((cmd_diff env a St.init).2.diffCalls = [] ∨
      (cmd_diff env a St.init).2.diffCalls =
        [(if a.threshold = 0 then 20 else a.threshold,
          if a.alpha = 0 then 6/10 else a.alpha)]) ∧
    (if a.threshold = 0 then 20 else a.threshold) ≠ 0 ∧
    (if a.alpha = 0 then (6/10 : ℚ) else a.alpha) ≠ 0 := by
  refine ⟨?_, ?_, ?_⟩
  · unfold cmd_diff
    by_cases h1 : str_trim a.a = ""
    · left
      simp [h1, error_out, print_json, bindM_apply, modifyM_apply, pureM_apply, St.init]
    by_cases h2 : str_trim a.b = ""
    · left
      simp [h1, h2, error_out, print_json, bindM_apply, modifyM_apply, pureM_apply, St.init]
    by_cases h3 : str_trim a.out = ""
    · left
      simp [h1, h2, h3, error_out, print_json, bindM_apply, modifyM_apply, pureM_apply,
        St.init]
    right
    simp only [if_neg h1, if_neg h2, if_neg h3]
    rcases hW : write_diff_image env (str_trim a.a) (str_trim a.b) (str_trim a.out)
        (if a.threshold = 0 then 20 else a.threshold)
        (if a.alpha = 0 then 6/10 else a.alpha) St.init with ⟨resW, sW⟩
    have hdc := write_diff_image_diffCalls env (str_trim a.a) (str_trim a.b)
      (str_trim a.out) (if a.threshold = 0 then 20 else a.threshold)
      (if a.alpha = 0 then 6/10 else a.alpha) St.init
    rw [hW] at hdc
    simp only [St.init, List.nil_append] at hdc
    simp only [bindM_apply, tryResult_apply, hW]
    cases resW with
    | ok v =>
      rcases v with ⟨dp, frac, sw, sh⟩
      simpa [ok_out, print_json, bindM_apply, modifyM_apply, pureM_apply] using hdc
    | error e =>
      simpa [error_out, print_json, bindM_apply, modifyM_apply, pureM_apply] using hdc
  · split_ifs with h
    · decide
    · exact h
  · split_ifs with h
    · norm_num
    · exact h

/-! ### C6: diff of an image against itself -/

/-- Counterexample for C6 as stated: threshold 256 is ≥ 0, yet the diff of an
image against itself does not succeed — `_write_diff_image` raises its
threshold range error (and `cmd_diff` would report the failure envelope). -/
theorem C6_selfdiff_counterexample :
    (write_diff_image baseEnv "a.png" "a.png" "out.png" 256 (6/10) St.init).1 =
      .error .thresholdOutOfRange := rfl

theorem diff_count_self (img : Img) (t : ℤ) (ht : 0 ≤ t) : diff_count img img t = 0 := by
  unfold diff_count
  apply List.sum_eq_zero
  intro n hn
  rw [List.mem_map] at hn
  obtain ⟨x, _hx, hxe⟩ := hn
  rw [← hxe, List.length_eq_zero, List.filter_eq_nil_iff]
  intro y _hy
  simp only [absdiff, lum, sub_self, abs_zero, mul_zero, add_zero, zero_add]
  norm_num
  omega

/-- Claim C6 (amended): for every readable image A (positive dimensions, as
any decodable PNG has), every threshold in the accepted range [0, 255] and
every opacity in [0, 1], with the output writable, the diff of A against
itself succeeds and returns flagged-pixel count 0 and flagged-pixel ratio
0.0. -/
theorem C6_selfdiff_zero (env : Env) (path out : String) (img : Img) (t : ℤ) (al : ℚ)
    (hload : env.loadImage path = some img) (hw : 0 < img.w) (hh : 0 < img.h)
    (ht0 : 0 ≤ t) (ht1 : t ≤ 255) (ha0 : 0 ≤ al) (ha1 : al ≤ 1)
    (hsave : env.saveFails = false) (s : St) :
    (write_diff_image env path path out t al s).1 = .ok (0, 0, img.w, img.h) := by
  have hcnt : diff_count img img t = 0 := diff_count_self img t ht0
  unfold write_diff_image image_save_png image_open
  rw [hload]
  simp only [bindM_apply, modifyM_apply, liftE_apply, pureM_apply, throwM_apply]
  rw [if_neg (by omega : ¬(t < 0 ∨ 255 < t))]
  rw [if_neg (by rw [not_or, not_lt, not_lt]; exact ⟨ha0, ha1⟩ : ¬(al < 0 ∨ 1 < al))]
  simp only [bindM_apply, liftE_apply]
  rw [if_neg (by simp : ¬(img.w ≠ img.w ∨ img.h ≠ img.h))]
  simp only [bindM_apply, diff_out_image]
  rw [if_neg (by omega : ¬(img.w ≤ 0 ∨ img.h ≤ 0))]
  rw [hsave]
  simp only [Bool.false_eq_true, if_false, modifyM_apply, pureM_apply]
  rw [hcnt]
  simp

/-- Witness for the amended C6 at the 1×1 image fixture with the default
threshold 20 and opacity 0.6. -/
theorem C6_selfdiff_zero_witness :
    (write_diff_image baseEnv "a.png" "a.png" "out.png" 20 (6/10) St.init).1 =
      .ok (0, 0, 1, 1) :=
  C6_selfdiff_zero baseEnv "a.png" "out.png" img1 20 (6/10) rfl (by decide) (by decide)
    (by decide) (by decide) (by norm_num) (by norm_num) rfl St.init

/-! ### C8: foreground-request denial and the focus paths -/

theorem set_foreground_window_run (env : Env) (hwnd : ℤ) (s : St) :
    set_foreground_window env hwnd s =
      (if env.fgDeniedAt s.fgCount then .error .fgDenied else .ok (),
       { s with fgCount := s.fgCount + 1 }) := by
  by_cases h : env.fgDeniedAt s.fgCount <;> simp [set_foreground_window, h]

/-- In `window` mode the rectangle query cannot fail: it returns the DWM
extended-frame rectangle or falls back to `GetWindowRect`. -/
theorem window_rect_window_ok (env : Env) (hwnd : ℤ) :
    window_rect env hwnd "window" =
      match env.dwmRect hwnd with
      | some r => .ok r
      | none => .ok (env.getWindowRect hwnd) := by
  have e1 : str_trim (str_lower "window") = "window" := rfl
  unfold window_rect
  rw [e1, if_neg (by simp), if_pos rfl]

/-- In `client` mode the rectangle query cannot fail either. -/
theorem window_rect_client_ok (env : Env) (hwnd : ℤ) :
    window_rect env hwnd "client" =
      .ok { left := (env.clientToScreen hwnd
              ((env.getClientRect hwnd).left, (env.getClientRect hwnd).top)).1,
            top := (env.clientToScreen hwnd
              ((env.getClientRect hwnd).left, (env.getClientRect hwnd).top)).2,
            right := (env.clientToScreen hwnd
              ((env.getClientRect hwnd).right, (env.getClientRect hwnd).bottom)).1,
            bottom := (env.clientToScreen hwnd
              ((env.getClientRect hwnd).right, (env.getClientRect hwnd).bottom)).2 } := by
  have e1 : str_trim (str_lower "client") = "client" := rfl
  unfold window_rect
  rw [e1, if_neg (by simp), if_neg (by decide)]

/-- Counterexample for C8 as stated: with focus-stealing prevention denying
the foreground request, the plain (non-maximize) focus invocation returns the
failure envelope with exit code 1 — the denial of the restore step's
foreground request is reported as failure, not silently ignored. -/
theorem C8_focus_denial_counterexample :
    (main_run envFgDenied (.focus focusArgs)).1 = 1 ∧
    (main_run envFgDenied (.focus focusArgs)).2.printed =
      [{ ok := false, action := "focus",
         message := Err.message .fgDenied, fields := [] }] ∧
    (cmd_focus envFgDenied focusArgs St.init).1 = .error .fgDenied := by
  refine ⟨rfl, rfl, rfl⟩

/-- If the dispatched command escapes with an exception, the top level prints
the failure envelope and exits with code 1. -/
theorem main_run_error {env : Env} {c : Cmd} {e : Err} {s1 : St}
    (h : dispatch env c St.init = (.error e, s1)) :
    (main_run env c).1 = 1 ∧
    (main_run env c).2.printed =
      s1.printed ++
        [{ ok := false, action := c.action, message := e.message, fields := [] }] := by
  unfold main_run
  rw [h]
  exact ⟨rfl, rfl⟩

/-- Claim C8 (amended): only the final foreground request of the non-maximize
focus path is best-effort — after a granted restore-step request, denial of
that final request is swallowed (whatever the foreground oracle answers from
then on) and the operation still succeeds with the success envelope — while
denial of the foreground request made anywhere else raises and is reported as
the failure envelope with exit code 1: during the initial restore step of the
non-maximize path, in the maximize path, and in activation within observe,
click and type. -/
theorem C8_focus_best_effort (env env2 : Env) (a : FocusArgs) (hwnd0 : ℤ) (title0 : String)
    (htitle : str_trim a.title ≠ "")
    (hfind : find_window_by_title env (str_trim a.title) = .ok (hwnd0, title0))
    (hfind2 : find_window_by_title env2 (str_trim a.title) = .ok (hwnd0, title0))
    (hmax : a.maximize = false)
    (hws : str_trim a.window_size = "") (hcs : str_trim a.client_size = "")
    (hx : a.x = none) (hy : a.y = none)
    (hfg0 : env.fgDeniedAt 0 = false)
    (hfg2 : env2.fgDeniedAt 0 = true) :
    ((cmd_focus env a St.init).1 = .ok 0 ∧
      (cmd_focus env a St.init).2.printed.map OutLine.ok = [true]) ∧
    ((cmd_focus env2 a St.init).1 = .error .fgDenied ∧
      (cmd_focus env2 a St.init).2.printed = [] ∧
      (main_run env2 (.focus a)).1 = 1 ∧
      (main_run env2 (.focus a)).2.printed.map OutLine.ok = [false]) ∧
    ((cmd_focus env2 { a with maximize := true } St.init).1 = .error .fgDenied ∧
      (main_run env2 (.focus { a with maximize := true })).1 = 1) ∧
    (∀ ao : ObserveArgs, str_trim ao.out ≠ "" → str_trim ao.window_title ≠ "" →
      find_window_by_title env2 (str_trim ao.window_title) = .ok (hwnd0, title0) →
      ao.activate = true →
      (cmd_observe env2 ao St.init).1 = .error .fgDenied ∧
      (main_run env2 (.observe ao)).1 = 1) ∧
    (∀ (ac : ClickArgs) (rx ry : ℚ), ac.rel_x = some rx → ac.rel_y = some ry →
      str_trim ac.window_title ≠ "" →
      find_window_by_title env2 (str_trim ac.window_title) = .ok (hwnd0, title0) →
      ac.activate = true →
      (cmd_click env2 ac St.init).1 = .error .fgDenied ∧
      (main_run env2 (.click ac)).1 = 1) ∧
    (∀ at0 : TypeArgs, at0.text ≠ "" → str_trim at0.window_title ≠ "" →
      find_window_by_title env2 (str_trim at0.window_title) = .ok (hwnd0, title0) →
      at0.activate = true →
      (cmd_type env2 at0 St.init).1 = .error .fgDenied ∧
      (main_run env2 (.typeText at0)).1 = 1) := by
  obtain ⟨rw1, hrw1⟩ : ∃ r, window_rect env hwnd0 "window" = .ok r := by
    rw [window_rect_window_ok]
    cases env.dwmRect hwnd0 <;> exact ⟨_, rfl⟩
  obtain ⟨rc1, hrc1⟩ : ∃ r, window_rect env hwnd0 "client" = .ok r :=
    ⟨_, window_rect_client_ok env hwnd0⟩
  have h0 : St.init.fgCount = 0 := rfl
  have hfw : focus_window env hwnd0 false St.init =
      (.ok (), { St.init with fgCount := 1 }) := by
    rw [focus_window_run, h0, hfg0]
    simp
  have hfw2 : ∀ mx : Bool, focus_window env2 hwnd0 mx St.init =
      (.error .fgDenied, { St.init with fgCount := 1 }) := by
    intro mx
    rw [focus_window_run, h0, hfg2]
    simp
  refine ⟨?_, ?_, ?_, ?_, ?_, ?_⟩
  · unfold cmd_focus
    rw [if_neg htitle]
    simp [bindM_apply, liftE_apply, hfind, hmax, hws, hcs, hx, hy, hfw,
      pureM_apply, tryIgnore_apply, set_window_pos, set_foreground_window_run,
      hrw1, hrc1, ok_out, print_json, modifyM_apply]
    rfl
  · have hc2 : cmd_focus env2 a St.init =
        (.error .fgDenied, { St.init with fgCount := 1 }) := by
      unfold cmd_focus
      rw [if_neg htitle]
      simp [bindM_apply, liftE_apply, hfind2, hmax, hfw2]
    have hm2 := main_run_error (show dispatch env2 (.focus a) St.init = _ from hc2)
    refine ⟨by rw [hc2], by rw [hc2]; rfl, hm2.1, ?_⟩
    rw [hm2.2]
    rfl
  · have hc3 : cmd_focus env2 { a with maximize := true } St.init =
        (.error .fgDenied, { St.init with fgCount := 1 }) := by
      unfold cmd_focus
      dsimp only
      rw [if_neg htitle]
      simp [bindM_apply, liftE_apply, hfind2, hfw2]
    exact ⟨by rw [hc3],
      (main_run_error (show dispatch env2 (.focus { a with maximize := true }) St.init = _
        from hc3)).1⟩
  · intro ao hout htw hfindo hacto
    have hco : cmd_observe env2 ao St.init =
        (.error .fgDenied, { St.init with fgCount := 1 }) := by
      unfold cmd_observe
      dsimp only
      rw [if_neg hout]
      simp [htw, bindM_apply, liftE_apply, hfindo, hacto, hfw2]
    exact ⟨by rw [hco],
      (main_run_error (show dispatch env2 (.observe ao) St.init = _ from hco)).1⟩
  · intro ac rx ry hrx hry htw hfindc hactc
    have hcc : cmd_click env2 ac St.init =
        (.error .fgDenied, { St.init with fgCount := 1 }) := by
      unfold cmd_click
      dsimp only
      simp [hrx, hry, htw, bindM_apply, liftE_apply, hfindc, hactc, hfw2]
    exact ⟨by rw [hcc],
      (main_run_error (show dispatch env2 (.click ac) St.init = _ from hcc)).1⟩
  · intro at0 htext htw hfindt hactt
    have hct : cmd_type env2 at0 St.init =
        (.error .fgDenied, { St.init with fgCount := 1 }) := by
      unfold cmd_type
      dsimp only
      rw [if_neg htext]
      simp [htw, hactt, bindM_apply, liftE_apply, hfindt, hfw2]
    exact ⟨by rw [hct],
      (main_run_error (show dispatch env2 (.typeText at0) St.init = _ from hct)).1⟩

/-- Witness for the amended C8: with the first foreground request granted and
all later ones denied, the plain focus succeeds; with every request denied,
the restore step, the maximize path, and activation within observe, click and
type each fail with the propagated denial and exit code 1. -/
theorem C8_focus_best_effort_witness :
    ((cmd_focus envSecondDenied focusArgs St.init).1 = .ok 0 ∧
      (cmd_focus envSecondDenied focusArgs St.init).2.printed.map OutLine.ok = [true]) ∧
    ((cmd_focus envFgDenied focusArgs St.init).1 = .error .fgDenied ∧
      (cmd_focus envFgDenied focusArgs St.init).2.printed = [] ∧
      (main_run envFgDenied (.focus focusArgs)).1 = 1 ∧
      (main_run envFgDenied (.focus focusArgs)).2.printed.map OutLine.ok = [false]) ∧
    ((cmd_focus envFgDenied { focusArgs with maximize := true } St.init).1 =
        .error .fgDenied ∧
      (main_run envFgDenied (.focus { focusArgs with maximize := true })).1 = 1) ∧
    ((cmd_observe envFgDenied observeActArgs St.init).1 = .error .fgDenied ∧
      (main_run envFgDenied (.observe observeActArgs)).1 = 1) ∧
    ((cmd_click envFgDenied { clickRelArgs with activate := true } St.init).1 =
        .error .fgDenied ∧
      (main_run envFgDenied (.click { clickRelArgs with activate := true })).1 = 1) ∧
    ((cmd_type envFgDenied typeActArgs St.init).1 = .error .fgDenied ∧
      (main_run envFgDenied (.typeText typeActArgs)).1 = 1) := by
  have h := C8_focus_best_effort envSecondDenied envFgDenied focusArgs 7 "Notepad"
    (by decide) rfl rfl rfl rfl rfl rfl rfl rfl rfl
  refine ⟨h.1, h.2.1, h.2.2.1, ?_, ?_, ?_⟩
  · exact h.2.2.2.1 observeActArgs (by decide) (by decide) rfl rfl
  · exact h.2.2.2.2.1 { clickRelArgs with activate := true } 500 500 rfl rfl (by decide)
      rfl rfl
  · exact h.2.2.2.2.2 typeActArgs (by decide) (by decide) rfl rfl

/-! ### C9: which inspect expectation checks the strict flag gates -/

/-- Counterexample for C9 as stated: with strict NOT set, an expected-DPI-scale
mismatch alone already fails the invocation (failure envelope, exit code 1),
so the expectation checks do not become hard failures "exactly when" strict
is set. -/
theorem C9_inspect_counterexample :
    inspectScaleArgs.strict = false ∧
    (main_run baseEnv (.inspect inspectScaleArgs)).1 = 1 ∧
    (main_run baseEnv (.inspect inspectScaleArgs)).2.printed.map OutLine.ok = [false] := by
  have hcond : (1 : ℚ)/2 < |dpi_scale baseEnv - 200| := by
    norm_num [dpi_scale, baseEnv]
  have htr : str_trim "" = "" := rfl
  have hc : cmd_inspect baseEnv inspectScaleArgs St.init =
      (.ok 1, { St.init with printed :=
        [{ ok := false, action := "inspect",
           message := "dpi scale mismatch: " ++ toString (dpi_scale baseEnv) ++
             ", expected " ++ toString (200 : ℚ), fields := [] }] }) := by
    unfold cmd_inspect inspectScaleArgs
    simp [inspect_scale_check, bindM_apply, liftE_apply, pureM_apply, error_out,
      print_json, modifyM_apply, htr, St.init]
    rw [if_pos (show (2 : ℚ)⁻¹ < |dpi_scale baseEnv - 200| from by
      rw [inv_eq_one_div]; exact hcond)]
    simp [bindM_apply, modifyM_apply, pureM_apply]
  simp only [St.init] at hc
  refine ⟨rfl, ?_, ?_⟩ <;>
    simp [main_run, dispatch, St.init, hc]

/-- Claim C9 (amended): only the expected-foreground check (together with the
strict-only screen-size and window-presence checks) is conditioned on the
strict flag — with strict unset an expected-foreground mismatch does not fail
and with strict set it does — while the expectation checks on DPI scale,
window size, client size and maximized state are hard failures regardless of
strict: a mismatch on any of them fails the invocation whether or not strict
is set. -/
theorem C9_inspect_strict_gating (env : Env) (a : InspectArgs) (hwnd0 : ℤ) (title0 : String)
    (rwin rcl : Rect)
    (htitle : str_trim a.title ≠ "")
    (hfind : find_window_by_title env (str_trim a.title) = .ok (hwnd0, title0))
    (hrwin : window_rect env hwnd0 "window" = .ok rwin)
    (hrcl : window_rect env hwnd0 "client" = .ok rcl)
    (hscn : env.screenW = 1920) (hsch : env.screenH = 1080)
    (hscale : a.expect_scale = none)
    (hws : str_trim a.expect_window_size = "") (hcs : str_trim a.expect_client_size = "")
    (hmaxed : a.expect_maximized = false)
    (hfg : a.expect_foreground = true)
    (hnotfg : env.foreground ≠ hwnd0)
    (hnotmax : env.maximized hwnd0 = false) :
    (a.strict = false → (cmd_inspect env a St.init).1 = .ok 0 ∧
      (cmd_inspect env a St.init).2.printed.map OutLine.ok = [true]) ∧
    (a.strict = true → (cmd_inspect env a St.init).1 = .ok 1 ∧
      (cmd_inspect env a St.init).2.printed.map OutLine.ok = [false]) ∧
    (∀ q : ℚ, 1/2 < |dpi_scale env - q| → ∀ b : Bool,
      (cmd_inspect env { a with expect_scale := some q, strict := b } St.init).1 = .ok 1 ∧
      (cmd_inspect env { a with expect_scale := some q, strict := b }
        St.init).2.printed.map OutLine.ok = [false]) ∧
    (∀ (ws : String) (W H : ℤ), str_trim ws ≠ "" →
      parse_size (str_trim ws) = .ok (W, H) → rwin.width ≠ W ∨ rwin.height ≠ H →
      ∀ b : Bool,
      (cmd_inspect env { a with expect_window_size := ws, strict := b } St.init).1 =
        .ok 1 ∧
      (cmd_inspect env { a with expect_window_size := ws, strict := b }
        St.init).2.printed.map OutLine.ok = [false]) ∧
    (∀ (cs : String) (W H : ℤ), str_trim cs ≠ "" →
      parse_size (str_trim cs) = .ok (W, H) → rcl.width ≠ W ∨ rcl.height ≠ H →
      ∀ b : Bool,
      (cmd_inspect env { a with expect_client_size := cs, strict := b } St.init).1 =
        .ok 1 ∧
      (cmd_inspect env { a with expect_client_size := cs, strict := b }
        St.init).2.printed.map OutLine.ok = [false]) ∧
    (∀ b : Bool,
      (cmd_inspect env { a with expect_maximized := true, strict := b } St.init).1 =
        .ok 1 ∧
      (cmd_inspect env { a with expect_maximized := true, strict := b }
        St.init).2.printed.map OutLine.ok = [false]) := by
  have hfgval : is_window_foreground env hwnd0 = false := by
    simp [is_window_foreground, hnotfg]
  refine ⟨?_, ?_, ?_, ?_, ?_, ?_⟩
  · intro hstrict
    constructor <;>
      simp [cmd_inspect, inspect_scale_check, inspect_window_size, inspect_client_size,
        inspect_maximized, inspect_strict, inspect_ok, bindM_apply, liftE_apply, pureM_apply,
        htitle, hfind, hrwin, hrcl, hscale, hws, hcs, hmaxed, hfg, hfgval, hstrict, hscn,
        hsch, SCREEN_WIDTH, SCREEN_HEIGHT, ok_out, error_out, print_json, modifyM_apply,
        inspect_fields, St.init]
  · intro hstrict
    constructor <;>
      simp [cmd_inspect, inspect_scale_check, inspect_window_size, inspect_client_size,
        inspect_maximized, inspect_strict, inspect_ok, bindM_apply, liftE_apply, pureM_apply,
        htitle, hfind, hrwin, hrcl, hscale, hws, hcs, hmaxed, hfg, hfgval, hstrict, hscn,
        hsch, SCREEN_WIDTH, SCREEN_HEIGHT, ok_out, error_out, print_json, modifyM_apply,
        inspect_fields, St.init]
  · intro q hq b
    have hq2 : (2 : ℚ)⁻¹ < |dpi_scale env - q| := by
      rw [inv_eq_one_div]
      exact hq
    constructor <;>
      simp [cmd_inspect, inspect_scale_check, inspect_window_size, inspect_client_size,
        inspect_maximized, inspect_strict, inspect_ok, bindM_apply, liftE_apply, pureM_apply,
        htitle, hfind, hrwin, hrcl, hws, hcs, hmaxed, hfg, hfgval, hscn, hsch, error_out,
        print_json, modifyM_apply, St.init, hq2]
  · intro ws W H hwsne hparse hmis b
    constructor <;>
      simp [cmd_inspect, inspect_scale_check, inspect_window_size, inspect_client_size,
        inspect_maximized, inspect_strict, inspect_ok, bindM_apply, liftE_apply, pureM_apply,
        htitle, hfind, hrwin, hrcl, hscale, hwsne, hparse, hmis, hcs, hmaxed, hfg, hfgval,
        hscn, hsch, error_out, print_json, modifyM_apply, St.init]
  · intro cs W H hcsne hparse hmis b
    constructor <;>
      simp [cmd_inspect, inspect_scale_check, inspect_window_size, inspect_client_size,
        inspect_maximized, inspect_strict, inspect_ok, bindM_apply, liftE_apply, pureM_apply,
        htitle, hfind, hrwin, hrcl, hscale, hws, hcsne, hparse, hmis, hmaxed, hfg, hfgval,
        hscn, hsch, error_out, print_json, modifyM_apply, St.init]
  · intro b
    constructor <;>
      simp [cmd_inspect, inspect_scale_check, inspect_window_size, inspect_client_size,
        inspect_maximized, inspect_strict, inspect_ok, bindM_apply, liftE_apply, pureM_apply,
        htitle, hfind, hrwin, hrcl, hscale, hws, hcs, hfg, hfgval, hscn, hsch,
        is_window_maximized, hnotmax, error_out, print_json, modifyM_apply, St.init]

/-- Witness for the amended C9, on the environment where "Notepad" is not
foreground (and not maximized) at 100% DPI scale: strict off with
expect-foreground succeeds; strict on fails; and with strict off, a mismatched
expected scale (200%), expected window size (640x480 vs 200x100), expected
client size (100x100 vs 180x80) and expected maximized state each fail. -/
theorem C9_inspect_strict_gating_witness :
    ((cmd_inspect envNotFg inspectFgArgs St.init).1 = .ok 0 ∧
      (cmd_inspect envNotFg inspectFgArgs St.init).2.printed.map OutLine.ok = [true]) ∧
    ((cmd_inspect envNotFg { inspectFgArgs with strict := true } St.init).1 = .ok 1 ∧
      (cmd_inspect envNotFg { inspectFgArgs with strict := true }
        St.init).2.printed.map OutLine.ok = [false]) ∧
    ((cmd_inspect envNotFg { inspectFgArgs with expect_scale := some 200, strict := false }
        St.init).1 = .ok 1 ∧
      (cmd_inspect envNotFg { inspectFgArgs with expect_scale := some 200, strict := false }
        St.init).2.printed.map OutLine.ok = [false]) ∧
    ((cmd_inspect envNotFg
        { inspectFgArgs with expect_window_size := "640x480", strict := false }
        St.init).1 = .ok 1 ∧
      (cmd_inspect envNotFg
        { inspectFgArgs with expect_window_size := "640x480", strict := false }
        St.init).2.printed.map OutLine.ok = [false]) ∧
    ((cmd_inspect envNotFg
        { inspectFgArgs with expect_client_size := "100x100", strict := false }
        St.init).1 = .ok 1 ∧
      (cmd_inspect envNotFg
        { inspectFgArgs with expect_client_size := "100x100", strict := false }
        St.init).2.printed.map OutLine.ok = [false]) ∧
    ((cmd_inspect envNotFg { inspectFgArgs with expect_maximized := true, strict := false }
        St.init).1 = .ok 1 ∧
      (cmd_inspect envNotFg { inspectFgArgs with expect_maximized := true, strict := false }
        St.init).2.printed.map OutLine.ok = [false]) := by
  have h1 := C9_inspect_strict_gating envNotFg inspectFgArgs 7 "Notepad"
    { left := 100, top := 100, right := 300, bottom := 200 }
    { left := 110, top := 110, right := 290, bottom := 190 }
    (by decide) rfl rfl rfl rfl rfl rfl rfl rfl rfl rfl (by decide) rfl
  have h2 := C9_inspect_strict_gating envNotFg { inspectFgArgs with strict := true }
    7 "Notepad"
    { left := 100, top := 100, right := 300, bottom := 200 }
    { left := 110, top := 110, right := 290, bottom := 190 }
    (by decide) rfl rfl rfl rfl rfl rfl rfl rfl rfl rfl (by decide) rfl
  refine ⟨h1.1 rfl, h2.2.1 rfl, ?_, ?_, ?_, ?_⟩
  · have h3 := h1.2.2.1 200 (by norm_num [dpi_scale, envNotFg, baseEnv]) false
    simpa using h3
  · have h4 := h1.2.2.2.1 "640x480" 640 480 (by decide) rfl (Or.inl (by decide)) false
    simpa using h4
  · have h5 := h1.2.2.2.2.1 "100x100" 100 100 (by decide) rfl (Or.inl (by decide)) false
    simpa using h5
  · have h6 := h1.2.2.2.2.2 false
    simpa using h6

/-! ### C3: exactly one envelope line and a matching exit code -/

theorem error_out_run (act msg : String) (s : St) :
    error_out act msg s =
      (.ok 1, { s with printed := s.printed ++
        [{ ok := false, action := act, message := msg, fields := [] }] }) := rfl

theorem ok_out_run (act : String) (fs : List (String × String)) (s : St) :
    ok_out act fs s =
      (.ok (), { s with printed := s.printed ++
        [{ ok := true, action := act, message := "", fields := fs }] }) := rfl

theorem noPrint_pure {α : Type} (a : α) : NoPrint (pureM a) := fun _ => rfl

theorem noPrint_throw {α : Type} (e : Err) : NoPrint (throwM e : M α) := fun _ => rfl

theorem noPrint_liftE {α : Type} (r : Except Err α) : NoPrint (liftE r) := fun _ => rfl

theorem noPrint_bind {α β : Type} {x : M α} {f : α → M β}
    (hx : NoPrint x) (hf : ∀ a, NoPrint (f a)) : NoPrint (bindM x f) := by
  intro s
  rw [bindM_apply]
  rcases hxs : x s with ⟨res, s1⟩
  have h1 : s1.printed = s.printed := by
    have h2 := hx s
    rwa [hxs] at h2
  cases res with
  | ok a => exact (hf a s1).trans h1
  | error e => exact h1

theorem noPrint_post_message (m : Msg) : NoPrint (post_message m) := fun _ => rfl

theorem noPrint_post_click (hwnd cx cy : ℤ) : NoPrint (post_click hwnd cx cy) := by
  unfold post_click
  exact noPrint_bind (noPrint_post_message _) fun _ =>
    noPrint_bind (noPrint_post_message _) fun _ => noPrint_post_message _

theorem noPrint_post_chars (hwnd : ℤ) (l : List Char) : NoPrint (post_chars hwnd l) := by
  induction l with
  | nil => exact noPrint_pure _
  | cons c cs ih =>
    unfold post_chars
    exact noPrint_bind (noPrint_post_message _) fun _ => ih

theorem noPrint_type_text (env : Env) (text : String) : NoPrint (type_text env text) := by
  unfold type_text
  dsimp only
  split
  · exact noPrint_throw _
  · exact noPrint_post_chars _ _

theorem noPrint_set_foreground (env : Env) (hwnd : ℤ) :
    NoPrint (set_foreground_window env hwnd) := by
  intro s
  rw [set_foreground_window_run]

theorem noPrint_focus_window (env : Env) (hwnd : ℤ) (mx : Bool) :
    NoPrint (focus_window env hwnd mx) := by
  unfold focus_window show_window
  exact noPrint_bind (noPrint_pure _) fun _ => noPrint_set_foreground env hwnd

theorem noPrint_tryIgnore {x : M Unit} (hx : NoPrint x) : NoPrint (tryIgnore x) := by
  intro s
  rw [tryIgnore_apply]
  exact hx s

theorem noPrint_tryResult {α : Type} {x : M α} (hx : NoPrint x) :
    NoPrint (tryResult x) := by
  intro s
  rw [tryResult_apply]
  rcases hxs : x s with ⟨res, s1⟩
  have h1 : s1.printed = s.printed := by
    have h2 := hx s
    rwa [hxs] at h2
  cases res with
  | ok a => exact h1
  | error e => exact h1

theorem noPrint_set_window_pos (env : Env) (hwnd : ℤ) (x y w h : Option ℤ) :
    NoPrint (set_window_pos env hwnd x y w h) := fun _ => rfl

theorem noPrint_overlay_bracket (env : Env) (ms : ℤ) (txt : String) :
    NoPrint (overlay_bracket env ms txt) := by
  intro s
  rw [overlay_bracket_run]
  split <;> rfl

theorem noPrint_capture_image (env : Env) : NoPrint (capture_fullscreen_image env) := by
  unfold capture_fullscreen_image
  apply noPrint_bind (noPrint_liftE _)
  intro _
  split
  · exact noPrint_pure _
  · exact noPrint_throw _

theorem noPrint_save (env : Env) (img : Img) (path : String) :
    NoPrint (image_save_png env img path) := by
  unfold image_save_png
  split
  · exact noPrint_throw _
  · split
    · exact noPrint_throw _
    · intro s
      rfl

theorem noPrint_capture_fullscreen_png (env : Env) (out : String) (ov : Bool) (ms : ℤ)
    (txt : String) : NoPrint (capture_fullscreen_png env out ov ms txt) := by
  unfold capture_fullscreen_png
  apply noPrint_bind
  · split
    · exact noPrint_overlay_bracket env ms txt
    · exact noPrint_pure _
  intro _
  apply noPrint_bind (noPrint_capture_image env)
  intro img
  apply noPrint_bind (noPrint_save env img out)
  intro _
  apply noPrint_bind
  · split
    · exact noPrint_overlay_bracket env ms txt
    · exact noPrint_pure _
  intro _
  exact noPrint_pure _

theorem noPrint_capture_window_png (env : Env) (out : String) (hwnd : ℤ) (mode : String)
    (ov : Bool) (ms : ℤ) (txt : String) :
    NoPrint (capture_window_png env out hwnd mode ov ms txt) := by
  unfold capture_window_png
  apply noPrint_bind
  · split
    · exact noPrint_overlay_bracket env ms txt
    · exact noPrint_pure _
  intro _
  apply noPrint_bind (noPrint_capture_image env)
  intro img
  apply noPrint_bind (noPrint_liftE _)
  intro r
  split
  · exact noPrint_throw _
  · apply noPrint_bind (noPrint_liftE _)
    intro cropped
    apply noPrint_bind (noPrint_save env cropped out)
    intro _
    apply noPrint_bind
    · split
      · exact noPrint_overlay_bracket env ms txt
      · exact noPrint_pure _
    intro _
    exact noPrint_pure _

theorem noPrint_click_at (env : Env) (x y : ℤ) : NoPrint (click_at env x y) := by
  unfold click_at
  apply noPrint_bind (noPrint_liftE _)
  intro _
  apply noPrint_bind (noPrint_liftE _)
  intro _
  apply noPrint_bind (noPrint_liftE _)
  intro hwnd
  exact noPrint_post_click _ _ _

theorem noPrint_write_diff_image (env : Env) (ap bp op : String) (t : ℤ) (al : ℚ) :
    NoPrint (write_diff_image env ap bp op t al) := by
  unfold write_diff_image
  apply noPrint_bind (fun _ => rfl)
  intro _
  split
  · exact noPrint_throw _
  · split
    · exact noPrint_throw _
    · apply noPrint_bind (noPrint_liftE _)
      intro img_a
      apply noPrint_bind (noPrint_liftE _)
      intro img_b
      split
      · exact noPrint_throw _
      · apply noPrint_bind (noPrint_save env _ op)
        intro _
        exact noPrint_pure _

theorem emits_error_out (act msg : String) : EmitsOne act (error_out act msg) := by
  intro s
  constructor
  · intro n s1 h
    rw [error_out_run, Prod.mk.injEq] at h
    obtain ⟨h1, h2⟩ := h
    rw [Except.ok.injEq] at h1
    refine ⟨{ ok := false, action := act, message := msg, fields := [] }, ?_, rfl,
      Or.inr ⟨rfl, h1.symm⟩⟩
    rw [← h2]
  · intro e s1 h
    rw [error_out_run, Prod.mk.injEq] at h
    exact absurd h.1 (by simp)

theorem emits_ok_zero (act : String) (fs : List (String × String)) :
    EmitsOne act (bindM (ok_out act fs) fun _ => pureM 0) := by
  intro s
  constructor
  · intro n s1 h
    simp only [bindM_apply, ok_out_run, pureM_apply, Prod.mk.injEq] at h
    obtain ⟨h1, h2⟩ := h
    rw [Except.ok.injEq] at h1
    refine ⟨{ ok := true, action := act, message := "", fields := fs }, ?_, rfl,
      Or.inl ⟨rfl, h1.symm⟩⟩
    rw [← h2]
  · intro e s1 h
    simp only [bindM_apply, ok_out_run, pureM_apply, Prod.mk.injEq] at h
    exact absurd h.1 (by simp)

theorem emits_bind {α : Type} {m : M α} {f : α → M ℕ} {act : String}
    (hm : NoPrint m) (hf : ∀ a, EmitsOne act (f a)) : EmitsOne act (bindM m f) := by
  intro s
  rcases hms : m s with ⟨res, s1⟩
  have hp : s1.printed = s.printed := by
    have h2 := hm s
    rwa [hms] at h2
  constructor
  · intro n s2 h
    rw [bindM_apply, hms] at h
    cases res with
    | ok a =>
      obtain ⟨l, hl, hact, hcode⟩ := ((hf a s1).1) n s2 h
      exact ⟨l, by rw [hl, hp], hact, hcode⟩
    | error e => simp at h
  · intro e s2 h
    rw [bindM_apply, hms] at h
    cases res with
    | ok a => exact (((hf a s1).2) e s2 h).trans hp
    | error e2 =>
      rw [Prod.mk.injEq] at h
      rw [← h.2]
      exact hp

theorem emits_cmd_observe (env : Env) (a : ObserveArgs) :
    EmitsOne "observe" (cmd_observe env a) := by
  unfold cmd_observe
  dsimp only
  split
  · exact emits_error_out _ _
  · split
    · apply emits_bind (noPrint_liftE _)
      intro hw
      apply emits_bind
      · split
        · exact noPrint_focus_window env hw.1 a.maximize
        · exact noPrint_pure _
      intro _
      apply emits_bind (noPrint_capture_window_png env _ _ _ _ _ _)
      intro rs
      exact emits_ok_zero _ _
    · apply emits_bind (noPrint_capture_fullscreen_png env _ _ _ _)
      intro shown
      exact emits_ok_zero _ _

theorem emits_cmd_click (env : Env) (a : ClickArgs) :
    EmitsOne "click" (cmd_click env a) := by
  unfold cmd_click
  dsimp only
  split
  · split
    · exact emits_error_out _ _
    · split
      · exact emits_error_out _ _
      · apply emits_bind (noPrint_liftE _)
        intro hw
        apply emits_bind
        · split
          · exact noPrint_focus_window env hw.1 a.maximize
          · exact noPrint_pure _
        intro _
        apply emits_bind (noPrint_liftE _)
        intro r
        apply emits_bind (noPrint_liftE _)
        intro p
        apply emits_bind (noPrint_liftE _)
        intro hit
        split
        · exact emits_error_out _ _
        · apply emits_bind (noPrint_post_click _ _ _)
          intro _
          exact emits_ok_zero _ _
  · rcases hx : a.x with _ | x
    · rcases hy : a.y with _ | y
      · exact emits_error_out _ _
      · exact emits_error_out _ _
    · rcases hy : a.y with _ | y
      · exact emits_error_out _ _
      · apply emits_bind
        · split
          · apply noPrint_bind (noPrint_liftE _)
            intro hw
            apply noPrint_bind
            · split
              · exact noPrint_focus_window env hw.1 a.maximize
              · exact noPrint_pure _
            intro _
            split
            · apply noPrint_bind (noPrint_liftE _)
              intro hit
              exact noPrint_pure _
            · exact noPrint_pure _
          · exact noPrint_pure _
        intro mismatch
        split
        · exact emits_error_out _ _
        · apply emits_bind (noPrint_click_at env _ _)
          intro _
          exact emits_ok_zero _ _

theorem emits_cmd_type (env : Env) (a : TypeArgs) :
    EmitsOne "type" (cmd_type env a) := by
  unfold cmd_type
  dsimp only
  split
  · exact emits_error_out _ _
  · apply emits_bind
    · split
      · apply noPrint_bind (noPrint_liftE _)
        intro hw
        exact noPrint_focus_window env hw.1 a.maximize
      · exact noPrint_pure _
    intro _
    apply emits_bind (noPrint_type_text env a.text)
    intro _
    exact emits_ok_zero _ _

theorem emits_inspect_ok (env : Env) (winfo : Option WinInfoOut) :
    EmitsOne "inspect" (inspect_ok env winfo) := by
  unfold inspect_ok
  exact emits_ok_zero _ _

theorem emits_inspect_strict (env : Env) (a : InspectArgs) (title : String)
    (winfo : Option WinInfoOut) : EmitsOne "inspect" (inspect_strict env a title winfo) := by
  unfold inspect_strict
  split
  · split
    · exact emits_error_out _ _
    · split
      · exact emits_error_out _ _
      · split
        · exact emits_error_out _ _
        · exact emits_inspect_ok env winfo
  · exact emits_inspect_ok env winfo

theorem emits_inspect_maximized (env : Env) (a : InspectArgs) (title : String)
    (winfo : Option WinInfoOut) :
    EmitsOne "inspect" (inspect_maximized env a title winfo) := by
  unfold inspect_maximized
  split
  · cases winfo with
    | none => exact emits_error_out _ _
    | some wi =>
      dsimp only
      split
      · exact emits_error_out _ _
      · exact emits_inspect_strict env a title (some wi)
  · exact emits_inspect_strict env a title winfo

theorem emits_inspect_client_size (env : Env) (a : InspectArgs) (title : String)
    (winfo : Option WinInfoOut) :
    EmitsOne "inspect" (inspect_client_size env a title winfo) := by
  unfold inspect_client_size
  split
  · cases winfo with
    | none => exact emits_error_out _ _
    | some wi =>
      apply emits_bind (noPrint_liftE _)
      intro p
      split
      · exact emits_error_out _ _
      · exact emits_inspect_maximized env a title (some wi)
  · exact emits_inspect_maximized env a title winfo

theorem emits_inspect_window_size (env : Env) (a : InspectArgs) (title : String)
    (winfo : Option WinInfoOut) :
    EmitsOne "inspect" (inspect_window_size env a title winfo) := by
  unfold inspect_window_size
  split
  · cases winfo with
    | none => exact emits_error_out _ _
    | some wi =>
      apply emits_bind (noPrint_liftE _)
      intro p
      split
      · exact emits_error_out _ _
      · exact emits_inspect_client_size env a title (some wi)
  · exact emits_inspect_client_size env a title winfo

theorem emits_inspect_scale_check (env : Env) (a : InspectArgs) (title : String)
    (winfo : Option WinInfoOut) :
    EmitsOne "inspect" (inspect_scale_check env a title winfo) := by
  unfold inspect_scale_check
  cases a.expect_scale with
  | none => exact emits_inspect_window_size env a title winfo
  | some expected =>
    dsimp only
    split
    · exact emits_error_out _ _
    · exact emits_inspect_window_size env a title winfo

theorem emits_cmd_inspect (env : Env) (a : InspectArgs) :
    EmitsOne "inspect" (cmd_inspect env a) := by
  unfold cmd_inspect
  dsimp only
  apply emits_bind
  · split
    · apply noPrint_bind (noPrint_liftE _)
      intro hw
      apply noPrint_bind (noPrint_liftE _)
      intro r
      apply noPrint_bind (noPrint_liftE _)
      intro cr
      exact noPrint_pure _
    · exact noPrint_pure _
  intro winfo
  exact emits_inspect_scale_check env a _ winfo

theorem emits_cmd_focus (env : Env) (a : FocusArgs) :
    EmitsOne "focus" (cmd_focus env a) := by
  unfold cmd_focus
  dsimp only
  split
  · exact emits_error_out _ _
  · apply emits_bind (noPrint_liftE _)
    intro hw
    apply emits_bind
    · split
      · apply noPrint_bind (noPrint_focus_window env hw.1 false)
        intro _
        apply noPrint_bind
        · split
          · apply noPrint_bind (noPrint_liftE _)
            intro p
            exact noPrint_pure _
          · split
            · apply noPrint_bind (noPrint_liftE _)
              intro p
              apply noPrint_bind (noPrint_liftE _)
              intro q
              exact noPrint_pure _
            · exact noPrint_pure _
        intro wh
        apply noPrint_bind
        · split
          · exact noPrint_set_window_pos env hw.1 a.x a.y _ _
          · exact noPrint_pure _
        intro _
        exact noPrint_tryIgnore (noPrint_set_foreground env hw.1)
      · exact noPrint_focus_window env hw.1 true
    intro _
    apply emits_bind (noPrint_liftE _)
    intro r
    apply emits_bind (noPrint_liftE _)
    intro cr
    exact emits_ok_zero _ _

theorem emits_cmd_diff (env : Env) (a : DiffArgs) :
    EmitsOne "diff" (cmd_diff env a) := by
  unfold cmd_diff
  dsimp only
  split
  · exact emits_error_out _ _
  · split
    · exact emits_error_out _ _
    · split
      · exact emits_error_out _ _
      · apply emits_bind (noPrint_tryResult (noPrint_write_diff_image env _ _ _ _ _))
        intro res
        match res with
        | .error e => exact emits_error_out _ _
        | .ok (dp, frac, sw, sh) =>
          exact emits_ok_zero _ _

theorem emits_dispatch (env : Env) (c : Cmd) : EmitsOne c.action (dispatch env c) := by
  cases c with
  | observe a => exact emits_cmd_observe env a
  | click a => exact emits_cmd_click env a
  | typeText a => exact emits_cmd_type env a
  | inspect a => exact emits_cmd_inspect env a
  | focus a => exact emits_cmd_focus env a
  | diff a => exact emits_cmd_diff env a

/-- Claim C3: for every invocation of the driver (any environment, any parsed
command), exactly one JSON envelope line is emitted on standard output,
tagged with the operation name; it is a success line exactly when the process
exit code is 0 and a failure line exactly when the exit code is 1, and every
exception raised by an internal step is caught at the top level and becomes
that failure envelope rather than an unstructured crash. -/
theorem C3_single_envelope (env : Env) (c : Cmd) :
    ∃ l : OutLine,
      (main_run env c).2.printed = [l] ∧
      l.action = c.action ∧
      ((l.ok = true ∧ (main_run env c).1 = 0) ∨ (l.ok = false ∧ (main_run env c).1 = 1)) := by
  have hd := emits_dispatch env c
  rcases hrun : dispatch env c St.init with ⟨res, s1⟩
  cases res with
  | ok n =>
    obtain ⟨l, hl, hact, hcode⟩ := (hd St.init).1 n s1 hrun
    have hmain : main_run env c = (n, s1) := by
      unfold main_run
      rw [hrun]
    refine ⟨l, ?_, hact, ?_⟩
    · rw [hmain]
      simpa [St.init] using hl
    · rw [hmain]
      exact hcode
  | error e =>
    have hp := (hd St.init).2 e s1 hrun
    have hmain : main_run env c =
        (1, { s1 with printed := s1.printed ++
          [{ ok := false, action := c.action, message := e.message, fields := [] }] }) := by
      unfold main_run
      rw [hrun]
      dsimp only
      rw [error_out_run]
    refine ⟨{ ok := false, action := c.action, message := e.message, fields := [] },
      ?_, rfl, Or.inr ⟨rfl, ?_⟩⟩
    · rw [hmain]
      have hp2 : s1.printed = [] := by
        rw [hp]
        rfl
      simp [hp2]
    · rw [hmain]

end DevDriver
